import Mathlib

/-!
Verification of the noisy-channel abbreviation spellchecker
(`src/nlp/abbreviation_spellchecker_Frodo.ipynb`).

Shallow embedding conventions:
* Python strings are `List Char`; the deletion placeholder is the char `'-'`.
* Python floats are `ℝ` for scores and `ℚ` for the (exact) probability
  arithmetic that feeds them; `np.log` is `Real.log`.
* A pandas `Series` is an association list `List (Char × Option ℚ)` in index
  order; a `none` value models an IEEE NaN entry, which pandas introduces
  when `freq += child_freq` aligns two series whose indexes differ.
  `Series.sum` skips NaN (pandas `skipna=True` default).
* Score-level floats are `RF := Option ℝ` with `none` modelling NaN
  (NaN propagates through arithmetic and makes every comparison false).
* Fallible operations (`series[token]` raising `KeyError`, `suffix[0]`
  raising `IndexError`) return `Except Err _`.
* A "fitted" model is represented by its constructor parameters plus the
  training data; the count tables built by `fit` are recomputed on demand
  (`ngramCount` etc.), which agrees with the `defaultdict(Counter)` read
  semantics of the source.  A separate stateful table model (`Table`,
  `tableRead`) captures the fact that `defaultdict` reads materialize
  entries, which the frame-effect claim C8 is about.
-/

set_option maxRecDepth 20000

inductive Err where
  | keyError : Err
  | indexError : Err
deriving DecidableEq

/-- Python `sorted(list(set(l)))` for characters: insert into a sorted
duplicate-free list. -/
def insertAsc (c : Char) : List Char → List Char
  | [] => [c]
  | d :: ds => if c < d then c :: d :: ds else if c = d then d :: ds else d :: insertAsc c ds

/-- Python `sorted(list(set(l)))`. -/
def sortedDedup (l : List Char) : List Char := l.foldr insertAsc []

/-- `LanguageNgramModel.fit`: vocabulary = distinct symbols of
`corpus[order:]`, sorted. -/
def vocabOf (corpus : List Char) (order : Nat) : List Char := sortedDedup (corpus.drop order)

/-- `LanguageNgramModel.fit`: `counter_[context][token]`, i.e. the number of
positions `i` with `corpus[i:i+order] = context` and `corpus[i+order] = token`
(`fit` enumerates `corpus[order:]` with running window `corpus[i:i+order]`).
An absent key reads as 0 (`defaultdict(Counter)`). -/
def ngramCount (order : Nat) (context : List Char) (token : Char) : List Char → Nat
  | [] => 0
  | c :: rest =>
      (match (c :: rest).drop order with
       | [] => 0
       | t :: _ => if (c :: rest).take order = context ∧ t = token then 1 else 0)
      + ngramCount order context token rest

/-- A fitted `LanguageNgramModel` (constructor arguments plus the corpus the
model was fitted on; the count tables are recovered by `ngramCount`). -/
structure LanguageNgramModel where
  order : Nat
  smoothing : ℚ
  recursive : ℚ
  corpus : List Char
deriving DecidableEq

def LanguageNgramModel.vocabulary (m : LanguageNgramModel) : List Char :=
  vocabOf m.corpus m.order

/-- A pandas `Series` over a character index; `none` is a NaN entry. -/
abbrev Series : Type := List (Char × Option ℚ)

def Series.index (s : Series) : List Char := s.map Prod.fst

/-- pandas `Series.sum()` with the default `skipna=True`. -/
def Series.sum (s : Series) : ℚ := s.foldl (fun acc p => acc + p.2.getD 0) 0

/-- pandas `series * scalar` (NaN entries stay NaN). -/
def Series.scale (s : Series) (q : ℚ) : Series := s.map (fun p => (p.1, p.2.map (· * q)))

/-- pandas `series / scalar` (NaN entries stay NaN). -/
def Series.divide (s : Series) (q : ℚ) : Series := s.map (fun p => (p.1, p.2.map (· / q)))

/-- pandas `a + b`: indexes are aligned on their (sorted) union, and a label
missing on either side — or carrying NaN on either side — yields NaN. -/
def Series.add (a b : Series) : Series :=
  (sortedDedup (a.index ++ b.index)).map (fun c =>
    (c, match a.lookup c, b.lookup c with
        | some (some x), some (some y) => some (x + y)
        | _, _ => none))

/-- pandas `series[token]`: `KeyError` when the label is absent from the
index; otherwise the stored value (possibly NaN). -/
def Series.get (s : Series) (c : Char) : Except Err (Option ℚ) :=
  match s.lookup c with
  | some v => .ok v
  | none => .error .keyError

/-- Python `context[-order:]` for `order > 0` (and `''` for `order = 0`),
as used by both models' `get_counts`/`predict_proba`. -/
def localContext (order : Nat) (context : List Char) : List Char :=
  if order ≠ 0 then context.drop (context.length - order) else []

/-- `LanguageNgramModel.get_counts`, by recursion on the model order
(the recursive-backoff chain of `fit`).  For each vocabulary symbol the
smoothed count `counter_[local][token] + smoothing`, plus the child model's
counts scaled by `recursive` when `recursive > 0 ∧ order > 0`, combined with
pandas index alignment. -/
def getCountsAux (corpus : List Char) (smoothing recursive : ℚ) :
    Nat → List Char → Series
  | 0, _context =>
      (vocabOf corpus 0).map (fun t =>
        (t, some ((ngramCount 0 [] t corpus : ℚ) + smoothing)))
  | k + 1, context =>
      let base : Series := (vocabOf corpus (k + 1)).map (fun t =>
        (t, some ((ngramCount (k + 1) (localContext (k + 1) context) t corpus : ℚ) + smoothing)))
      if 0 < recursive then
        Series.add base ((getCountsAux corpus smoothing recursive k context).scale recursive)
      else base

def LanguageNgramModel.get_counts (m : LanguageNgramModel) (context : List Char) : Series :=
  getCountsAux m.corpus m.smoothing m.recursive m.order context

/-- `LanguageNgramModel.predict_proba`: `get_counts` normalized by its
(skipna) sum. -/
def LanguageNgramModel.predict_proba (m : LanguageNgramModel) (context : List Char) : Series :=
  let counts := m.get_counts context
  counts.divide counts.sum

/-- A fitted `MissingLetterModel` (constructor arguments plus the training
pairs). -/
structure MissingLetterModel where
  order : Nat
  smoothing_missed : ℚ
  smoothing_total : ℚ
  pairs : List (List Char × List Char)
deriving DecidableEq

/-- One training pair's contribution to `missed_counter_[context][letter]`
(positions of `zip(original[order:], observed[order:])` whose running context
`original[i:i+order]` matches, whose original letter matches, and whose
observed letter is the placeholder `'-'`). -/
def pairMissedCount (order : Nat) (orig obs : List Char) (context : List Char)
    (letter : Char) : Nat :=
  (List.range (min orig.length obs.length - order)).countP (fun i =>
    decide ((orig.drop i).take order = context ∧
      orig.getD (i + order) ' ' = letter ∧ obs.getD (i + order) ' ' = '-'))

/-- One training pair's contribution to `total_counter_[context][letter]`. -/
def pairTotalCount (order : Nat) (orig obs : List Char) (context : List Char)
    (letter : Char) : Nat :=
  (List.range (min orig.length obs.length - order)).countP (fun i =>
    decide ((orig.drop i).take order = context ∧ orig.getD (i + order) ' ' = letter))

def MissingLetterModel.missedCount (m : MissingLetterModel) (context : List Char)
    (letter : Char) : Nat :=
  (m.pairs.map (fun p => pairMissedCount m.order p.1 p.2 context letter)).sum

def MissingLetterModel.totalCount (m : MissingLetterModel) (context : List Char)
    (letter : Char) : Nat :=
  (m.pairs.map (fun p => pairTotalCount m.order p.1 p.2 context letter)).sum

/-- `MissingLetterModel.predict_proba`: smoothed missed/total ratio for
`last_letter` after the trailing `order` symbols of `context`. -/
def MissingLetterModel.predict_proba (m : MissingLetterModel) (context : List Char)
    (last_letter : Char) : ℚ :=
  let localc := localContext m.order context
  ((m.missedCount localc last_letter : ℚ) + m.smoothing_missed) /
    ((m.totalCount localc last_letter : ℚ) + m.smoothing_total)

/-! ## Score-level floats

`RF` is a Python float that may be NaN (`none`).  NaN propagates through
arithmetic, and every ordered comparison involving NaN is false.  `np.log` of
a NaN is NaN; `Real.log`'s junk value at nonpositive arguments stands in for
the `-inf`/NaN results numpy would produce there (such arguments are never
produced by the configurations the claims are about). -/

abbrev RF : Type := Option ℝ

def rfAdd : RF → RF → RF
  | some a, some b => some (a + b)
  | _, _ => none

def rfSub : RF → RF → RF
  | some a, some b => some (a - b)
  | _, _ => none

def rfNeg : RF → RF := Option.map Neg.neg

def rfScale (r : ℝ) : RF → RF := Option.map (· * r)

noncomputable def rfLog : RF → RF := Option.map Real.log

noncomputable def rfExp : RF → RF := Option.map Real.exp

def rfOfQ : Option ℚ → RF := Option.map (fun q => (q : ℝ))

/-- Python `x < y` on floats: false when either side is NaN. -/
def rfLt : RF → RF → Prop
  | some a, some b => a < b
  | _, _ => False

/-- Python `x <= y` on floats: false when either side is NaN. -/
def rfLe : RF → RF → Prop
  | some a, some b => a ≤ b
  | _, _ => False

/-- Python `x == y` on floats: false when either side is NaN. -/
def rfEqv : RF → RF → Prop
  | some a, some b => a = b
  | _, _ => False

/-- The recursion of `LanguageNgramModel.single_log_proba`:
`result += np.log(predict_proba(context)[token]); context += token`.
A token absent from the series index raises `KeyError`. -/
noncomputable def langSLPGo (m : LanguageNgramModel) : List Char → List Char → RF → Except Err RF
  | _ctx, [], acc => .ok acc
  | ctx, t :: ts, acc => do
      let v ← (m.predict_proba ctx).get t
      langSLPGo m (ctx ++ [t]) ts (rfAdd acc (rfLog (rfOfQ v)))

noncomputable def LanguageNgramModel.single_log_proba (m : LanguageNgramModel)
    (context continuation : List Char) : Except Err RF :=
  langSLPGo m context continuation (some 0)

/-- `np.exp(single_log_proba(...))`. -/
noncomputable def LanguageNgramModel.single_proba (m : LanguageNgramModel)
    (context continuation : List Char) : Except Err RF :=
  (m.single_log_proba context continuation).map rfExp

/-- The recursion of `MissingLetterModel.single_log_proba`: for each pair of
an original and an actual token, take `pp = predict_proba(context, orig)`,
replace it by `1 - pp` when the actual token is the placeholder `'-'`, add
`np.log(pp)`, and extend the context by the original token. -/
noncomputable def missedSLPGo (m : MissingLetterModel) : List Char → List (Char × Char) → ℝ → ℝ
  | _ctx, [], acc => acc
  | ctx, (ot, at') :: rest, acc =>
      let pp : ℚ := m.predict_proba ctx ot
      let pp : ℚ := if at' = '-' then 1 - pp else pp
      missedSLPGo m (ctx ++ [ot]) rest (acc + Real.log (pp : ℝ))

/-- `MissingLetterModel.single_log_proba(context, continuation, actual=None)`.
Python's `if not actual: actual = continuation` treats both `None` and the
empty string as "no actual"; `zip` truncates to the shorter argument. -/
noncomputable def MissingLetterModel.single_log_proba (m : MissingLetterModel)
    (context continuation : List Char) (actual : Option (List Char)) : ℝ :=
  let act := match actual with
    | none => continuation
    | some a => if a = [] then continuation else a
  missedSLPGo m context (continuation.zip act) 0

/-! ## The search -/

/-- A heap/candidate entry of `noisy_channel`: the tuple
`(proba, prefix, suffix, letter, proba_suffix)`.  The seeded candidate's
`letter` field is Python `None`; it is modelled as `[]` (that field of a
candidate is never read). -/
structure SNode where
  proba : RF
  pre : List Char
  suffix : List Char
  letter : List Char
  probaSuffix : RF

/-- Python string `<` (lexicographic by code point). -/
def listLtB : List Char → List Char → Bool
  | [], [] => false
  | [], _ :: _ => true
  | _ :: _, [] => false
  | a :: as, b :: bs => if a < b then true else if b < a then false else listLtB as bs

open Classical in
/-- Python tuple comparison on `SNode`s: walk the fields while they compare
equal (`==`, false for NaN), and decide by `<` at the first difference;
equal tuples are not `<`. -/
def nodeLt (a b : SNode) : Prop :=
  if rfEqv a.proba b.proba then
    if a.pre = b.pre then
      if a.suffix = b.suffix then
        if a.letter = b.letter then
          if rfEqv a.probaSuffix b.probaSuffix then False
          else rfLt a.probaSuffix b.probaSuffix
        else listLtB a.letter b.letter
      else listLtB a.suffix b.suffix
    else listLtB a.pre b.pre
  else rfLt a.proba b.proba

open Classical in
/-- `heappop`: remove a least element (with respect to `nodeLt`) from the
heap.  For the totally ordered, NaN-free heaps arising in the claims this
pops exactly the element `heapq` pops; the order of the remaining elements
is irrelevant because every later pop again takes a least element. -/
noncomputable def popMinGo (cur : SNode) (kept : List SNode) : List SNode → SNode × List SNode
  | [] => (cur, kept)
  | y :: ys => if nodeLt y cur then popMinGo y (kept ++ [cur]) ys else popMinGo cur (kept ++ [y]) ys

noncomputable def popMin : List SNode → Option (SNode × List SNode)
  | [] => none
  | x :: xs => some (popMinGo x [] xs)

/-- Python `cache[i]` on the suffix-cost cache (a dict keyed by
`0 .. len(query)`, modelled as a list indexed by position): `KeyError` when
the key is absent. -/
def cacheGet (cache : List RF) (i : Nat) : Except Err RF :=
  match cache.get? i with
  | some v => .ok v
  | none => .error .keyError

/-- `generate_options(prefix_proba, prefix, suffix, lang_model, missed_model,
optimism, cache)`.  One branch per vocabulary letter (an assumed deletion)
plus the `''` branch consuming `suffix[0]` (an `IndexError` when the suffix
is empty).  `if cache:` is true exactly for a nonempty dict. -/
noncomputable def generate_options (prefix_proba : RF) (pre suffix : List Char)
    (lang_model : LanguageNgramModel) (missed_model : MissingLetterModel)
    (optimism : ℝ) (cache : Option (List RF)) : Except Err (List SNode) :=
  (lang_model.vocabulary.map (fun c => [c]) ++ [[]]).mapM (fun letter => do
    let step ← (match letter with
      | c :: _ =>
          Except.ok (c, suffix, pre ++ [c], -Real.log (missed_model.predict_proba pre c))
      | [] =>
          match suffix with
          | [] => Except.error Err.indexError
          | s :: rest =>
              Except.ok (s, rest, pre ++ [s],
                -Real.log (1 - missed_model.predict_proba pre s)))
    let next_letter := step.1
    let new_suffix := step.2.1
    let new_pre := step.2.2.1
    let proba_missing_state : ℝ := step.2.2.2
    let sp ← lang_model.single_proba pre [next_letter]
    let proba_next_letter := rfNeg (rfLog sp)
    let proba_suffix ← (match cache with
      | some (c₀ :: cs) => do
          let v ← cacheGet (c₀ :: cs) new_suffix.length
          Except.ok (rfScale optimism v)
      | _ => do
          let v ← lang_model.single_proba new_pre new_suffix
          Except.ok (rfScale optimism (rfNeg (rfLog v))))
    Except.ok ({ proba := rfAdd (rfAdd (rfAdd prefix_proba proba_next_letter)
                  (some proba_missing_state)) proba_suffix,
                 pre := new_pre, suffix := new_suffix, letter := letter,
                 probaSuffix := proba_suffix } : SNode))

open Classical in
/-- The `for i in range(max_attempts)` loop of `noisy_channel`, by recursion
on the remaining attempts.  A pop with empty suffix is a leaf: it is accepted
into `candidates` when within `best_logprob + freedom`, possibly improving
`best_logprob`.  Any other pop is expanded via `generate_options` (with
`prefix_proba = next_best[0] - next_best[4]`), and each new option strictly
below `best_logprob + freedom` is pushed. -/
noncomputable def searchLoop (lang_model : LanguageNgramModel)
    (missed_model : MissingLetterModel) (freedom optimism : ℝ) (cache : List RF) :
    Nat → List SNode → List SNode → RF → Except Err (List SNode × RF)
  | 0, _heap, candidates, best_logprob => .ok (candidates, best_logprob)
  | n + 1, heap, candidates, best_logprob =>
    match popMin heap with
    | none => .ok (candidates, best_logprob)
    | some (next_best, rest) =>
      if next_best.suffix = [] then
        if rfLe next_best.proba (rfAdd best_logprob (some freedom)) then
          searchLoop lang_model missed_model freedom optimism cache n rest
            (candidates ++ [next_best])
            (if rfLt next_best.proba best_logprob then next_best.proba else best_logprob)
        else
          searchLoop lang_model missed_model freedom optimism cache n rest
            candidates best_logprob
      else do
        let prefix_proba := rfSub next_best.proba next_best.probaSuffix
        let new_options ← generate_options prefix_proba next_best.pre next_best.suffix
          lang_model missed_model optimism (some cache)
        let heap' := new_options.foldl (fun h o =>
          if rfLt o.proba (rfAdd best_logprob (some freedom)) then h ++ [o] else h) rest
        searchLoop lang_model missed_model freedom optimism cache n heap'
          candidates best_logprob

/-- Python dict assignment `result[k] = v` (update in place, else append). -/
def dictInsert (r : List (List Char × RF)) (k : List Char) (v : RF) :
    List (List Char × RF) :=
  if (r.lookup k).isSome then r.map (fun p => if p.1 = k then (p.1, v) else p)
  else r ++ [(k, v)]

open Classical in
/-- The final filter of `noisy_channel`: keep every candidate whose score is
within `best_logprob + freedom`, keyed by `candidate[1][1:-1]` (the phrase
with its boundary markers stripped), with Python dict insertion order. -/
noncomputable def resultMap (candidates : List SNode) (best_logprob : RF)
    (freedom : ℝ) : List (List Char × RF) :=
  candidates.foldl (fun r c =>
    if rfLe c.proba (rfAdd best_logprob (some freedom)) then
      dictInsert r (c.pre.drop 1).dropLast c.proba
    else r) []

/-- The baseline score of `noisy_channel`:
`full_origin_logprob + no_missing_logprob` where
`full_origin_logprob = -lang_model.single_log_proba(' ', query)` and
`no_missing_logprob = -missed_model.single_log_proba(' ', query)`
with `query = word + ' '`. -/
noncomputable def baselineScore (word : List Char) (lang_model : LanguageNgramModel)
    (missed_model : MissingLetterModel) : Except Err RF := do
  let fo ← lang_model.single_log_proba [' '] (word ++ [' '])
  Except.ok (rfAdd (rfNeg fo)
    (some (-(missed_model.single_log_proba [' '] (word ++ [' ']) none))))

/-- Entry `i` of the suffix-cost cache of `noisy_channel`:
`-lang_model.single_log_proba('', query[:i]) - missed_model.single_log_proba('', query[:i])`
stored under key `len(query[:i]) = i`. -/
noncomputable def noisyCacheEntry (lang_model : LanguageNgramModel)
    (missed_model : MissingLetterModel) (query : List Char) (i : Nat) :
    Except Err RF := do
  let v ← lang_model.single_log_proba [] (query.take i)
  Except.ok (rfAdd (rfNeg v)
    (some (-(missed_model.single_log_proba [] (query.take i) none))))

open Classical in
/-- `noisy_channel(word, lang_model, missed_model, freedom, max_attempts,
optimism)` (the `verbose` printing is omitted).  The heap is seeded with the
start hypothesis scored `best_logprob * optimism`, the candidate list with
the baseline no-deletion candidate, the cache holds one entry per prefix
length of the query, and the final mapping keeps every candidate within
`best_logprob + freedom`, keyed by its phrase with the boundary markers
stripped (`candidate[1][1:-1]`). -/
noncomputable def noisy_channel (word : List Char) (lang_model : LanguageNgramModel)
    (missed_model : MissingLetterModel) (freedom : ℝ) (max_attempts : Nat)
    (optimism : ℝ) : Except Err (List (List Char × RF)) := do
  let query := word ++ [' ']
  let pre : List Char := [' ']
  let best_logprob ← baselineScore word lang_model missed_model
  let heap : List SNode := [{ proba := rfScale optimism best_logprob
                              pre := pre
                              suffix := query
                              letter := []
                              probaSuffix := rfScale optimism best_logprob }]
  let candidates : List SNode := [{ proba := best_logprob
                                    pre := pre ++ query
                                    suffix := []
                                    letter := []
                                    probaSuffix := some 0 }]
  let cache ← (List.range (query.length + 1)).mapM
    (noisyCacheEntry lang_model missed_model query)
  let out ← searchLoop lang_model missed_model freedom optimism cache
    max_attempts heap candidates best_logprob
  Except.ok (resultMap out.1 out.2 freedom)

/-! ## The mutable count tables

The count tables of both models are Python `defaultdict(lambda: Counter())`:
reading a missing context key *materializes* an empty `Counter` under that
key (a `Counter` read of a missing letter returns 0 without inserting).
`Table`/`tableRead` model this mutation, which happens inside `get_counts`
(`freq_dict = self.counter_[local]`) and hence inside every search that
meets a context unseen at fit time.  The pure model above reads the same
values (an absent key counts as zero), so the two agree on every output. -/

abbrev Counter : Type := List (Char × Nat)

abbrev Table : Type := List (List Char × Counter)

/-- `Counter[tok]` (read): 0 when absent, no insertion. -/
def counterGet (c : Counter) (tok : Char) : Nat := (c.lookup tok).getD 0

/-- `Counter[tok] += 1`. -/
def counterIncr (c : Counter) (tok : Char) : Counter :=
  if (c.lookup tok).isSome then c.map (fun p => if p.1 = tok then (p.1, p.2 + 1) else p)
  else c ++ [(tok, 1)]

/-- `defaultdict` read `t[k]`: returns the stored counter, materializing an
empty one (appended in insertion order) when the key is missing. -/
def tableRead (t : Table) (k : List Char) : Counter × Table :=
  match t.lookup k with
  | some c => (c, t)
  | none => ([], t ++ [(k, ([] : Counter))])

/-- `t[k][tok] += 1` as performed by `fit`. -/
def tableIncr (t : Table) (k : List Char) (tok : Char) : Table :=
  let r := tableRead t k
  r.2.map (fun p => if p.1 = k then (p.1, counterIncr r.1 tok) else p)

/-- The `counter_` table as `LanguageNgramModel.fit` leaves it. -/
def langFitTable (corpus : List Char) (order : Nat) : Table :=
  (List.range (corpus.length - order)).foldl (fun t i =>
    tableIncr t ((corpus.drop i).take order) (corpus.getD (i + order) ' ')) []

/-- The count a later read sees for `(k, tok)`. -/
def tableCount (t : Table) (k : List Char) (tok : Char) : Nat :=
  counterGet ((t.lookup k).getD []) tok

/-- Stateful `get_counts` for a model without a backoff child
(`recursive = 0`): `freq_dict = self.counter_[local]` is a `defaultdict`
read (possibly materializing an entry), after which the smoothed series is
built from `Counter` reads.  Returns the series together with the updated
table. -/
def langGetCountsSt (t : Table) (vocab : List Char) (smoothing : ℚ) (order : Nat)
    (context : List Char) : Series × Table :=
  let r := tableRead t (localContext order context)
  (vocab.map (fun tok => (tok, some ((counterGet r.1 tok : ℚ) + smoothing))), r.2)

/-! ## Claim-side definitions

These follow the specification's words (not the code) and are used to
compare what the code computes against what the spec says it computes. -/

/-- Follows the spec's words: the log-probability that a continuation after
a context suffers **no deletions**, i.e. the sum of `log (1 - p_del)` over
its symbols with the running context.  (What
`single_log_proba(context, continuation)` with `actual` omitted is specified
to return.) -/
noncomputable def claimedNoDeletionLogProba (m : MissingLetterModel) :
    List Char → List Char → ℝ
  | _ctx, [] => 0
  | ctx, t :: ts =>
      Real.log ((1 - m.predict_proba ctx t : ℚ) : ℝ) +
        claimedNoDeletionLogProba m (ctx ++ [t]) ts

/-- Follows the spec's words: the joint log-probability that each symbol of
the continuation is deleted or kept as `actual` specifies — `log p_del` at a
position `actual` marks with `'-'` and `log (1 - p_del)` at a kept
position. -/
noncomputable def claimedDistortionLogProba (m : MissingLetterModel) :
    List Char → List (Char × Char) → ℝ
  | _ctx, [] => 0
  | ctx, (ot, at') :: rest =>
      (if at' = '-' then Real.log ((m.predict_proba ctx ot : ℚ) : ℝ)
       else Real.log ((1 - m.predict_proba ctx ot : ℚ) : ℝ)) +
        claimedDistortionLogProba m (ctx ++ [ot]) rest

/-- Follows the spec's words: the baseline score of a query — the cost of
the query with **zero assumed deletions**: the full-origin language-model
cost plus the cost of no deletion happening anywhere. -/
noncomputable def claimedZeroDeletionScore (word : List Char)
    (lang_model : LanguageNgramModel) (missed_model : MissingLetterModel) :
    Except Err RF := do
  let fo ← lang_model.single_log_proba [' '] (word ++ [' '])
  Except.ok (rfAdd (rfNeg fo)
    (some (-claimedNoDeletionLogProba missed_model [' '] (word ++ [' ']))))

/-- Follows the spec's words (claim C4): the value the cache is specified to
hold for remaining-suffix length `L` — the unconditional cost of generating
the **length-`L` remaining suffix** of the padded query plus the
unconditional cost of it containing **no further deletions**. -/
noncomputable def claimedCacheEntry (lang_model : LanguageNgramModel)
    (missed_model : MissingLetterModel) (query : List Char) (L : Nat) :
    Except Err RF := do
  let v ← lang_model.single_log_proba [] (query.drop (query.length - L))
  Except.ok (rfAdd (rfNeg v)
    (some (-claimedNoDeletionLogProba missed_model [] (query.drop (query.length - L)))))

/-! ## Concrete instances

* `mmAbra` is the notebook's own example deletion model (cell 9).
* `lmW`/`mmW` is a small pair of trained models used for the freedom
  non-monotonicity run and the baseline-score evaluations: a 1-gram language
  model on the corpus `' ab ab ab '` with smoothing `1/100` and no backoff,
  and an order-0 deletion model with deletion probabilities
  `d(a) = 1/105`, `d(b) = 2/5`, `d(' ') = 1/6`.
* `lmTiny` is a 1-gram model fitted on the one-character corpus `'a'` (a
  non-empty corpus whose vocabulary comes out empty).
* `mmDeg` is a deletion model with `smoothing_missed = smoothing_total`,
  making the smoothed deletion probability of an unseen letter exactly 1.
* `lmX`/`mmX`: a trained pair whose corpus `'xa a'` contains `'x'` only in
  the very first position, so `'x'` is in the backoff child's vocabulary but
  not in the fitted model's own `vocabulary_`. -/

def mmAbra : MissingLetterModel :=
  ⟨0, 3/10, 1,
    [([ 'a','b','r','a','c','a','d','a','b','r','a' ],
      [ 'a','b','r','-','c','-','d','-','b','r','-' ])]⟩

def lmW : LanguageNgramModel :=
  ⟨1, 1/100, 0, [' ','a','b',' ','a','b',' ','a','b',' ']⟩

def mmW : MissingLetterModel :=
  ⟨0, 1, 2,
    [(List.replicate 103 'a', List.replicate 103 'a'),
     ([ 'b','b','b' ], [ '-','b','b' ]),
     ([ ' ',' ',' ',' ' ], [ ' ',' ',' ',' ' ])]⟩

def lmTiny : LanguageNgramModel := ⟨1, 1, 0, ['a']⟩

def mmDeg : MissingLetterModel := ⟨0, 1, 1, []⟩

def lmX : LanguageNgramModel := ⟨1, 1, 1/2, [ 'x','a',' ','a' ]⟩

def mmX : MissingLetterModel := ⟨0, 1, 2, []⟩

/-- The suffix-cost cache `noisy_channel` builds for the query `'b '`
(entries for lengths 0, 1, 2 — computed from the query's *prefixes*). -/
noncomputable def cacheWL : List RF :=
  [some 0, some (Real.log (15/2)), some (Real.log (13635/301))]

def lmFr : LanguageNgramModel := ⟨1, 1, 0, [ ' ','a','b',' ','a','b','x' ]⟩

def lmV : LanguageNgramModel := ⟨1, 1, 1, [ ' ','a','b',' ' ]⟩

/-- The deletion child the claim describes: for a vocabulary symbol `c`
assumed deleted, edge cost `-log p_del(c | P) - log p_lang(c | P)`, suffix
unchanged, prefix extended by `c`, heuristic = cached cost of the unchanged
suffix (already scaled by optimism), total = parent's `prefix_proba` plus
edge plus heuristic. -/
noncomputable def claimedDeletionChild (pp : RF) (P S : List Char)
    (mm : MissingLetterModel) (q : Char → ℚ) (heur : RF) (c : Char) : SNode :=
  { proba := rfAdd (rfAdd (rfAdd pp (some (-Real.log (q c : ℝ))))
      (some (-Real.log (mm.predict_proba P c : ℝ)))) heur,
    pre := P ++ [c], suffix := S, letter := [c], probaSuffix := heur }

/-- The consuming child the claim describes: the next literal symbol `s` of
the suffix is kept, with edge cost `-log (1 - p_del(s | P)) - log p_lang(s | P)`,
suffix shortened by one, prefix extended by `s`, heuristic = cached cost of
the shortened suffix (already scaled by optimism). -/
noncomputable def claimedConsumeChild (pp : RF) (P : List Char) (s : Char)
    (rest : List Char) (mm : MissingLetterModel) (qs : ℚ) (heur : RF) : SNode :=
  { proba := rfAdd (rfAdd (rfAdd pp (some (-Real.log (qs : ℝ))))
      (some (-Real.log (1 - (mm.predict_proba P s : ℝ))))) heur,
    pre := P ++ [s], suffix := rest, letter := [], probaSuffix := heur }

/-! ## Helper lemmas: evaluating sums of logarithms through `Real.exp` -/

lemma expEq (x r : ℝ) (h : Real.exp x = r) : x = Real.log r := by
  rw [← h, Real.log_exp]

lemma expLt (x y : ℝ) (h : Real.exp x < Real.exp y) : x < y := Real.exp_lt_exp.mp h

lemma expLe (x y : ℝ) (h : Real.exp x ≤ Real.exp y) : x ≤ y := Real.exp_le_exp.mp h

lemma expNe (x y : ℝ) (h : Real.exp x ≠ Real.exp y) : x ≠ y := fun e => h (by rw [e])

/-! ## Evaluation lemmas for the trained pair `lmW`/`mmW` -/

lemma mmW_d_a (ctx : List Char) : mmW.predict_proba ctx 'a' = 1/105 := by
  simp only [MissingLetterModel.predict_proba, mmW]
  rw [show localContext 0 ctx = [] from by simp [localContext]]
  rw [show (MissingLetterModel.mk 0 1 2
    [(List.replicate 103 'a', List.replicate 103 'a'),
     ([ 'b','b','b' ], [ '-','b','b' ]),
     ([ ' ',' ',' ',' ' ], [ ' ',' ',' ',' ' ])]).missedCount [] 'a' = 0 from by decide]
  rw [show (MissingLetterModel.mk 0 1 2
    [(List.replicate 103 'a', List.replicate 103 'a'),
     ([ 'b','b','b' ], [ '-','b','b' ]),
     ([ ' ',' ',' ',' ' ], [ ' ',' ',' ',' ' ])]).totalCount [] 'a' = 103 from by decide]
  norm_num

lemma mmW_d_b (ctx : List Char) : mmW.predict_proba ctx 'b' = 2/5 := by
  simp only [MissingLetterModel.predict_proba, mmW]
  rw [show localContext 0 ctx = [] from by simp [localContext]]
  rw [show (MissingLetterModel.mk 0 1 2
    [(List.replicate 103 'a', List.replicate 103 'a'),
     ([ 'b','b','b' ], [ '-','b','b' ]),
     ([ ' ',' ',' ',' ' ], [ ' ',' ',' ',' ' ])]).missedCount [] 'b' = 1 from by decide]
  rw [show (MissingLetterModel.mk 0 1 2
    [(List.replicate 103 'a', List.replicate 103 'a'),
     ([ 'b','b','b' ], [ '-','b','b' ]),
     ([ ' ',' ',' ',' ' ], [ ' ',' ',' ',' ' ])]).totalCount [] 'b' = 3 from by decide]
  norm_num

lemma mmW_d_s (ctx : List Char) : mmW.predict_proba ctx ' ' = 1/6 := by
  simp only [MissingLetterModel.predict_proba, mmW]
  rw [show localContext 0 ctx = [] from by simp [localContext]]
  rw [show (MissingLetterModel.mk 0 1 2
    [(List.replicate 103 'a', List.replicate 103 'a'),
     ([ 'b','b','b' ], [ '-','b','b' ]),
     ([ ' ',' ',' ',' ' ], [ ' ',' ',' ',' ' ])]).missedCount [] ' ' = 0 from by decide]
  rw [show (MissingLetterModel.mk 0 1 2
    [(List.replicate 103 'a', List.replicate 103 'a'),
     ([ 'b','b','b' ], [ '-','b','b' ]),
     ([ ' ',' ',' ',' ' ], [ ' ',' ',' ',' ' ])]).totalCount [] ' ' = 4 from by decide]
  norm_num

lemma ppW_sp : lmW.predict_proba [' ']
    = [(' ', some (1/303)), ('a', some (301/303)), ('b', some (1/303))] := by
  simp only [LanguageNgramModel.predict_proba, LanguageNgramModel.get_counts, lmW]
  rw [show getCountsAux [' ','a','b',' ','a','b',' ','a','b',' '] (1/100) 0 1 [' ']
      = [(' ', some (1/100)), ('a', some (301/100)), ('b', some (1/100))] from by
    simp only [getCountsAux]
    rw [show vocabOf [' ','a','b',' ','a','b',' ','a','b',' '] (0+1) = [' ','a','b'] from by decide]
    rw [show localContext (0+1) [' '] = [' '] from by decide]
    rw [if_neg (show ¬ (0:ℚ) < 0 from by norm_num)]
    simp only [List.map]
    rw [show ngramCount (0+1) [' '] ' ' [' ','a','b',' ','a','b',' ','a','b',' '] = 0 from by decide]
    rw [show ngramCount (0+1) [' '] 'a' [' ','a','b',' ','a','b',' ','a','b',' '] = 3 from by decide]
    rw [show ngramCount (0+1) [' '] 'b' [' ','a','b',' ','a','b',' ','a','b',' '] = 0 from by decide]
    norm_num]
  simp only [Series.divide, Series.sum, List.foldl, List.map]
  norm_num

lemma ppW_sb : lmW.predict_proba [' ','b']
    = [(' ', some (301/303)), ('a', some (1/303)), ('b', some (1/303))] := by
  simp only [LanguageNgramModel.predict_proba, LanguageNgramModel.get_counts, lmW]
  rw [show getCountsAux [' ','a','b',' ','a','b',' ','a','b',' '] (1/100) 0 1 [' ','b']
      = [(' ', some (301/100)), ('a', some (1/100)), ('b', some (1/100))] from by
    simp only [getCountsAux]
    rw [show vocabOf [' ','a','b',' ','a','b',' ','a','b',' '] (0+1) = [' ','a','b'] from by decide]
    rw [show localContext (0+1) [' ','b'] = ['b'] from by decide]
    rw [if_neg (show ¬ (0:ℚ) < 0 from by norm_num)]
    simp only [List.map]
    rw [show ngramCount (0+1) ['b'] ' ' [' ','a','b',' ','a','b',' ','a','b',' '] = 3 from by decide]
    rw [show ngramCount (0+1) ['b'] 'a' [' ','a','b',' ','a','b',' ','a','b',' '] = 0 from by decide]
    rw [show ngramCount (0+1) ['b'] 'b' [' ','a','b',' ','a','b',' ','a','b',' '] = 0 from by decide]
    norm_num]
  simp only [Series.divide, Series.sum, List.foldl, List.map]
  norm_num

lemma ppW_sa : lmW.predict_proba [' ','a']
    = [(' ', some (1/303)), ('a', some (1/303)), ('b', some (301/303))] := by
  simp only [LanguageNgramModel.predict_proba, LanguageNgramModel.get_counts, lmW]
  rw [show getCountsAux [' ','a','b',' ','a','b',' ','a','b',' '] (1/100) 0 1 [' ','a']
      = [(' ', some (1/100)), ('a', some (1/100)), ('b', some (301/100))] from by
    simp only [getCountsAux]
    rw [show vocabOf [' ','a','b',' ','a','b',' ','a','b',' '] (0+1) = [' ','a','b'] from by decide]
    rw [show localContext (0+1) [' ','a'] = ['a'] from by decide]
    rw [if_neg (show ¬ (0:ℚ) < 0 from by norm_num)]
    simp only [List.map]
    rw [show ngramCount (0+1) ['a'] ' ' [' ','a','b',' ','a','b',' ','a','b',' '] = 0 from by decide]
    rw [show ngramCount (0+1) ['a'] 'a' [' ','a','b',' ','a','b',' ','a','b',' '] = 0 from by decide]
    rw [show ngramCount (0+1) ['a'] 'b' [' ','a','b',' ','a','b',' ','a','b',' '] = 3 from by decide]
    norm_num]
  simp only [Series.divide, Series.sum, List.foldl, List.map]
  norm_num

lemma ppW_sab : lmW.predict_proba [' ','a','b']
    = [(' ', some (301/303)), ('a', some (1/303)), ('b', some (1/303))] := by
  simp only [LanguageNgramModel.predict_proba, LanguageNgramModel.get_counts, lmW]
  rw [show getCountsAux [' ','a','b',' ','a','b',' ','a','b',' '] (1/100) 0 1 [' ','a','b']
      = [(' ', some (301/100)), ('a', some (1/100)), ('b', some (1/100))] from by
    simp only [getCountsAux]
    rw [show vocabOf [' ','a','b',' ','a','b',' ','a','b',' '] (0+1) = [' ','a','b'] from by decide]
    rw [show localContext (0+1) [' ','a','b'] = ['b'] from by decide]
    rw [if_neg (show ¬ (0:ℚ) < 0 from by norm_num)]
    simp only [List.map]
    rw [show ngramCount (0+1) ['b'] ' ' [' ','a','b',' ','a','b',' ','a','b',' '] = 3 from by decide]
    rw [show ngramCount (0+1) ['b'] 'a' [' ','a','b',' ','a','b',' ','a','b',' '] = 0 from by decide]
    rw [show ngramCount (0+1) ['b'] 'b' [' ','a','b',' ','a','b',' ','a','b',' '] = 0 from by decide]
    norm_num]
  simp only [Series.divide, Series.sum, List.foldl, List.map]
  norm_num

lemma ppW_nil : lmW.predict_proba ([] : List Char)
    = [(' ', some (1/3)), ('a', some (1/3)), ('b', some (1/3))] := by
  simp only [LanguageNgramModel.predict_proba, LanguageNgramModel.get_counts, lmW]
  rw [show getCountsAux [' ','a','b',' ','a','b',' ','a','b',' '] (1/100) 0 1 ([] : List Char)
      = [(' ', some (1/100)), ('a', some (1/100)), ('b', some (1/100))] from by
    simp only [getCountsAux]
    rw [show vocabOf [' ','a','b',' ','a','b',' ','a','b',' '] (0+1) = [' ','a','b'] from by decide]
    rw [show localContext (0+1) ([] : List Char) = [] from by decide]
    rw [if_neg (show ¬ (0:ℚ) < 0 from by norm_num)]
    simp only [List.map]
    rw [show ngramCount (0+1) [] ' ' [' ','a','b',' ','a','b',' ','a','b',' '] = 0 from by decide]
    rw [show ngramCount (0+1) [] 'a' [' ','a','b',' ','a','b',' ','a','b',' '] = 0 from by decide]
    rw [show ngramCount (0+1) [] 'b' [' ','a','b',' ','a','b',' ','a','b',' '] = 0 from by decide]
    norm_num]
  simp only [Series.divide, Series.sum, List.foldl, List.map]
  norm_num

lemma ppW_b : lmW.predict_proba ['b']
    = [(' ', some (301/303)), ('a', some (1/303)), ('b', some (1/303))] := by
  simp only [LanguageNgramModel.predict_proba, LanguageNgramModel.get_counts, lmW]
  rw [show getCountsAux [' ','a','b',' ','a','b',' ','a','b',' '] (1/100) 0 1 ['b']
      = [(' ', some (301/100)), ('a', some (1/100)), ('b', some (1/100))] from by
    simp only [getCountsAux]
    rw [show vocabOf [' ','a','b',' ','a','b',' ','a','b',' '] (0+1) = [' ','a','b'] from by decide]
    rw [show localContext (0+1) ['b'] = ['b'] from by decide]
    rw [if_neg (show ¬ (0:ℚ) < 0 from by norm_num)]
    simp only [List.map]
    rw [show ngramCount (0+1) ['b'] ' ' [' ','a','b',' ','a','b',' ','a','b',' '] = 3 from by decide]
    rw [show ngramCount (0+1) ['b'] 'a' [' ','a','b',' ','a','b',' ','a','b',' '] = 0 from by decide]
    rw [show ngramCount (0+1) ['b'] 'b' [' ','a','b',' ','a','b',' ','a','b',' '] = 0 from by decide]
    norm_num]
  simp only [Series.divide, Series.sum, List.foldl, List.map]
  norm_num

lemma cacheW0 : noisyCacheEntry lmW mmW ['b',' '] 0 = .ok (some 0) := by
  simp [noisyCacheEntry, LanguageNgramModel.single_log_proba, langSLPGo,
    MissingLetterModel.single_log_proba, missedSLPGo, rfAdd, rfNeg, rfLog, rfOfQ,
    Except.bind, bind]

lemma cacheW1 : noisyCacheEntry lmW mmW ['b',' '] 1 = .ok (some (Real.log (15/2))) := by
  simp only [noisyCacheEntry, LanguageNgramModel.single_log_proba, langSLPGo,
    List.take_succ_cons, List.take_zero]
  rw [ppW_nil]
  simp [Series.get, List.lookup, MissingLetterModel.single_log_proba, missedSLPGo,
    mmW_d_b, rfAdd, rfNeg, rfLog, rfOfQ, Except.bind, bind]
  apply expEq
  norm_num [Real.exp_add, Real.exp_neg, Real.exp_log]

lemma cacheW2 : noisyCacheEntry lmW mmW ['b',' '] 2 = .ok (some (Real.log (13635/301))) := by
  simp only [noisyCacheEntry, LanguageNgramModel.single_log_proba, langSLPGo,
    List.take_succ_cons, List.take_zero, List.nil_append, List.cons_append]
  rw [ppW_nil, ppW_b]
  simp [Series.get, List.lookup, MissingLetterModel.single_log_proba, missedSLPGo,
    mmW_d_b, mmW_d_s, rfAdd, rfNeg, rfLog, rfOfQ, Except.bind, bind]
  apply expEq
  norm_num [Real.exp_add, Real.exp_neg, Real.exp_log]

lemma cacheW_list :
    (List.range (([ 'b',' ' ] : List Char).length + 1)).mapM (noisyCacheEntry lmW mmW ['b',' '])
      = .ok cacheWL := by
  rw [show List.range (([ 'b',' ' ] : List Char).length + 1) = [0, 1, 2] from by decide]
  simp [List.mapM, List.mapM.loop, cacheW0, cacheW1, cacheW2, cacheWL, Except.bind, bind,
    pure, Except.pure]

lemma baseW : baselineScore ['b'] lmW mmW = .ok (some (Real.log (1377135/301))) := by
  simp only [baselineScore, LanguageNgramModel.single_log_proba, langSLPGo,
    MissingLetterModel.single_log_proba, List.cons_append, List.nil_append]
  rw [ppW_sp, ppW_sb]
  simp [Series.get, List.lookup, missedSLPGo, List.zip, List.zipWith,
    mmW_d_b, mmW_d_s, rfOfQ, rfLog, rfAdd, rfNeg, Except.bind, bind]
  apply expEq
  norm_num [Real.exp_add, Real.exp_neg, Real.exp_log]

lemma vocW : lmW.vocabulary = [' ','a','b'] := by decide

lemma expandRootW (pp : ℝ) :
    generate_options (some pp) [' '] ['b',' '] lmW mmW 1 (some cacheWL) = .ok [
      { proba := some (pp + Real.log (24788430/301))
        pre := [' ',' ']
        suffix := ['b',' ']
        letter := [' ']
        probaSuffix := some (Real.log (13635/301)) },
      { proba := some (pp + Real.log (61971075/12943))
        pre := [' ','a']
        suffix := ['b',' ']
        letter := ['a']
        probaSuffix := some (Real.log (13635/301)) },
      { proba := some (pp + Real.log (20657025/602))
        pre := [' ','b']
        suffix := ['b',' ']
        letter := ['b']
        probaSuffix := some (Real.log (13635/301)) },
      { proba := some (pp + Real.log (7575/2))
        pre := [' ','b']
        suffix := [' ']
        letter := []
        probaSuffix := some (Real.log (15/2)) } ] := by
  simp only [generate_options, vocW, List.map, List.cons_append, List.nil_append]
  simp only [LanguageNgramModel.single_proba, LanguageNgramModel.single_log_proba, langSLPGo]
  rw [ppW_sp]
  simp [Series.get, List.lookup, mmW_d_a, mmW_d_b, mmW_d_s, cacheGet, cacheWL,
    rfAdd, rfNeg, rfLog, rfExp, rfOfQ, rfScale, Except.bind, bind, pure, Except.pure,
    Except.map, Function.comp, List.mapM, List.mapM.loop, Real.log_exp, SNode.mk.injEq]
  refine ⟨?_, ?_, ?_, ?_⟩ <;>
    (rw [← sub_eq_zero, ← Real.exp_eq_one_iff]
     norm_num [Real.exp_sub, Real.exp_add, Real.exp_neg, Real.exp_log]
     try (rw [div_eq_one_iff_eq (by positivity)]; ring))

lemma expandC1W (pp : ℝ) :
    generate_options (some pp) [' ','b'] [' '] lmW mmW 1 (some cacheWL) = .ok [
      { proba := some (pp + Real.log (13635/301))
        pre := [' ','b',' ']
        suffix := [' ']
        letter := [' ']
        probaSuffix := some (Real.log (15/2)) },
      { proba := some (pp + Real.log (477225/2))
        pre := [' ','b','a']
        suffix := [' ']
        letter := ['a']
        probaSuffix := some (Real.log (15/2)) },
      { proba := some (pp + Real.log (22725/4))
        pre := [' ','b','b']
        suffix := [' ']
        letter := ['b']
        probaSuffix := some (Real.log (15/2)) },
      { proba := some (pp + Real.log (1818/1505))
        pre := [' ','b',' ']
        suffix := ([] : List Char)
        letter := []
        probaSuffix := some (0 : ℝ) } ] := by
  simp only [generate_options, vocW, List.map, List.cons_append, List.nil_append]
  simp only [LanguageNgramModel.single_proba, LanguageNgramModel.single_log_proba, langSLPGo]
  rw [ppW_sb]
  simp [Series.get, List.lookup, mmW_d_a, mmW_d_b, mmW_d_s, cacheGet, cacheWL,
    rfAdd, rfNeg, rfLog, rfExp, rfOfQ, rfScale, Except.bind, bind, pure, Except.pure,
    Except.map, Function.comp, List.mapM, List.mapM.loop, Real.log_exp, SNode.mk.injEq]
  refine ⟨?_, ?_, ?_, ?_⟩ <;>
    (rw [← sub_eq_zero, ← Real.exp_eq_one_iff]
     norm_num [Real.exp_sub, Real.exp_add, Real.exp_neg, Real.exp_log]
     try (rw [div_eq_one_iff_eq (by positivity)]; ring))

lemma expandYaW (pp : ℝ) :
    generate_options (some pp) [' ','a'] ['b',' '] lmW mmW 1 (some cacheWL) = .ok [
      { proba := some (pp + Real.log (24788430/301))
        pre := [' ','a',' ']
        suffix := ['b',' ']
        letter := [' ']
        probaSuffix := some (Real.log (13635/301)) },
      { proba := some (pp + Real.log (433797525/301))
        pre := [' ','a','a']
        suffix := ['b',' ']
        letter := ['a']
        probaSuffix := some (Real.log (13635/301)) },
      { proba := some (pp + Real.log (20657025/181202))
        pre := [' ','a','b']
        suffix := ['b',' ']
        letter := ['b']
        probaSuffix := some (Real.log (13635/301)) },
      { proba := some (pp + Real.log (7575/602))
        pre := [' ','a','b']
        suffix := [' ']
        letter := []
        probaSuffix := some (Real.log (15/2)) } ] := by
  simp only [generate_options, vocW, List.map, List.cons_append, List.nil_append]
  simp only [LanguageNgramModel.single_proba, LanguageNgramModel.single_log_proba, langSLPGo]
  rw [ppW_sa]
  simp [Series.get, List.lookup, mmW_d_a, mmW_d_b, mmW_d_s, cacheGet, cacheWL,
    rfAdd, rfNeg, rfLog, rfExp, rfOfQ, rfScale, Except.bind, bind, pure, Except.pure,
    Except.map, Function.comp, List.mapM, List.mapM.loop, Real.log_exp, SNode.mk.injEq]
  refine ⟨?_, ?_, ?_, ?_⟩ <;>
    (rw [← sub_eq_zero, ← Real.exp_eq_one_iff]
     norm_num [Real.exp_sub, Real.exp_add, Real.exp_neg, Real.exp_log]
     try (rw [div_eq_one_iff_eq (by positivity)]; ring))

lemma expandUW (pp : ℝ) :
    generate_options (some pp) [' ','a','b'] [' '] lmW mmW 1 (some cacheWL) = .ok [
      { proba := some (pp + Real.log (13635/301))
        pre := [' ','a','b',' ']
        suffix := [' ']
        letter := [' ']
        probaSuffix := some (Real.log (15/2)) },
      { proba := some (pp + Real.log (477225/2))
        pre := [' ','a','b','a']
        suffix := [' ']
        letter := ['a']
        probaSuffix := some (Real.log (15/2)) },
      { proba := some (pp + Real.log (22725/4))
        pre := [' ','a','b','b']
        suffix := [' ']
        letter := ['b']
        probaSuffix := some (Real.log (15/2)) },
      { proba := some (pp + Real.log (1818/1505))
        pre := [' ','a','b',' ']
        suffix := ([] : List Char)
        letter := []
        probaSuffix := some (0 : ℝ) } ] := by
  simp only [generate_options, vocW, List.map, List.cons_append, List.nil_append]
  simp only [LanguageNgramModel.single_proba, LanguageNgramModel.single_log_proba, langSLPGo]
  rw [ppW_sab]
  simp [Series.get, List.lookup, mmW_d_a, mmW_d_b, mmW_d_s, cacheGet, cacheWL,
    rfAdd, rfNeg, rfLog, rfExp, rfOfQ, rfScale, Except.bind, bind, pure, Except.pure,
    Except.map, Function.comp, List.mapM, List.mapM.loop, Real.log_exp, SNode.mk.injEq]
  refine ⟨?_, ?_, ?_, ?_⟩ <;>
    (rw [← sub_eq_zero, ← Real.exp_eq_one_iff]
     norm_num [Real.exp_sub, Real.exp_add, Real.exp_neg, Real.exp_log]
     try (rw [div_eq_one_iff_eq (by positivity)]; ring))

lemma popMin_single (x : SNode) : popMin [x] = some (x, []) := by
  simp [popMin, popMinGo]

lemma popMin_pair_swap (a b : SNode) (h : nodeLt b a) : popMin [a, b] = some (b, [a]) := by
  simp [popMin, popMinGo, h]

lemma popMin_pair_keep (a b : SNode) (h : ¬ nodeLt b a) : popMin [a, b] = some (a, [b]) := by
  simp [popMin, popMinGo, h]

/-! ## The two freedom runs for claim C6 -/

lemma cmpO1 : ¬ rfLt (some (Real.log (24788430/301))) (some (Real.log (1377135/301))) := by
  simp only [rfLt]
  apply not_lt.mpr
  apply expLe
  norm_num [Real.exp_sub, Real.exp_add, Real.exp_neg, Real.exp_log]

lemma cmpO2 : ¬ rfLt (some (Real.log (61971075/12943))) (some (Real.log (1377135/301))) := by
  simp only [rfLt]
  apply not_lt.mpr
  apply expLe
  norm_num [Real.exp_sub, Real.exp_add, Real.exp_neg, Real.exp_log]

lemma cmpO3 : ¬ rfLt (some (Real.log (20657025/602))) (some (Real.log (1377135/301))) := by
  simp only [rfLt]
  apply not_lt.mpr
  apply expLe
  norm_num [Real.exp_sub, Real.exp_add, Real.exp_neg, Real.exp_log]

lemma cmpO4 : rfLt (some (Real.log (7575/2))) (some (Real.log (1377135/301))) := by
  simp only [rfLt]
  apply expLt
  norm_num [Real.exp_sub, Real.exp_add, Real.exp_neg, Real.exp_log]

lemma cmpE1 : ¬ rfLt (some (Real.log (7575/2) - Real.log (15/2) + Real.log (13635/301))) (some (Real.log (1377135/301))) := by
  simp only [rfLt]
  apply not_lt.mpr
  apply expLe
  norm_num [Real.exp_sub, Real.exp_add, Real.exp_neg, Real.exp_log]

lemma cmpE2 : ¬ rfLt (some (Real.log (7575/2) - Real.log (15/2) + Real.log (477225/2))) (some (Real.log (1377135/301))) := by
  simp only [rfLt]
  apply not_lt.mpr
  apply expLe
  norm_num [Real.exp_sub, Real.exp_add, Real.exp_neg, Real.exp_log]

lemma cmpE3 : ¬ rfLt (some (Real.log (7575/2) - Real.log (15/2) + Real.log (22725/4))) (some (Real.log (1377135/301))) := by
  simp only [rfLt]
  apply not_lt.mpr
  apply expLe
  norm_num [Real.exp_sub, Real.exp_add, Real.exp_neg, Real.exp_log]

lemma cmpE4 : rfLt (some (Real.log (7575/2) - Real.log (15/2) + Real.log (1818/1505))) (some (Real.log (1377135/301))) := by
  simp only [rfLt]
  apply expLt
  norm_num [Real.exp_sub, Real.exp_add, Real.exp_neg, Real.exp_log]

lemma cmpXaccLe : rfLe (some (Real.log (7575/2) - Real.log (15/2) + Real.log (1818/1505))) (some (Real.log (1377135/301) + 0)) := by
  simp only [rfLe]
  apply expLe
  norm_num [Real.exp_sub, Real.exp_add, Real.exp_neg, Real.exp_log]

lemma cmpXaccLt : rfLt (some (Real.log (7575/2) - Real.log (15/2) + Real.log (1818/1505))) (some (Real.log (1377135/301))) := by
  simp only [rfLt]
  apply expLt
  norm_num [Real.exp_sub, Real.exp_add, Real.exp_neg, Real.exp_log]

lemma cmpBfin : ¬ rfLe (some (Real.log (1377135/301))) (some (Real.log (7575/2) - Real.log (15/2) + Real.log (1818/1505))) := by
  simp only [rfLe]
  apply not_le.mpr
  apply expLt
  norm_num [Real.exp_sub, Real.exp_add, Real.exp_neg, Real.exp_log]

lemma cmpXfin : rfLe (some (Real.log (7575/2) - Real.log (15/2) + Real.log (1818/1505))) (some (Real.log (7575/2) - Real.log (15/2) + Real.log (1818/1505))) := by
  simp only [rfLe]
  apply expLe
  norm_num [Real.exp_sub, Real.exp_add, Real.exp_neg, Real.exp_log]

theorem runF1 :
    (noisy_channel ['b'] lmW mmW 0 20 1).map (List.map Prod.fst) = .ok [[ 'b' ]] := by
  simp only [noisy_channel, List.cons_append, List.nil_append]
  rw [baseW]
  simp only [Except.bind, bind, rfScale, Option.map_some', mul_one]
  rw [cacheW_list]
  simp only [Except.bind, bind]
  have step1 : searchLoop lmW mmW 0 1 cacheWL 20
      [{ proba := some (Real.log (1377135/301)), pre := [' '], suffix := ['b',' '], letter := [], probaSuffix := some (Real.log (1377135/301)) }] [{ proba := some (Real.log (1377135/301)), pre := [' ','b',' '], suffix := ([] : List Char), letter := [], probaSuffix := some (0:ℝ) }] (some (Real.log (1377135/301)))
      = searchLoop lmW mmW 0 1 cacheWL 19
      [{ proba := some (Real.log (7575/2)), pre := [' ','b'], suffix := [' '], letter := [], probaSuffix := some (Real.log (15/2)) }] [{ proba := some (Real.log (1377135/301)), pre := [' ','b',' '], suffix := ([] : List Char), letter := [], probaSuffix := some (0:ℝ) }] (some (Real.log (1377135/301))) := by
    rw [show (20:ℕ) = 19+1 from rfl, searchLoop, popMin_single]
    try dsimp only
    rw [if_neg (show ¬ (['b',' '] : List Char) = [] from by decide)]
    simp only [rfSub, Except.bind, bind, sub_self]
    rw [expandRootW]
    simp only [Except.bind, bind, List.foldl, rfAdd, zero_add, add_zero,
      cmpO1, cmpO2, cmpO3, cmpO4, if_true, if_false,
      List.nil_append, List.cons_append, List.append_nil, List.singleton_append]
  rw [step1]
  have step2 : searchLoop lmW mmW 0 1 cacheWL 19
      [{ proba := some (Real.log (7575/2)), pre := [' ','b'], suffix := [' '], letter := [], probaSuffix := some (Real.log (15/2)) }] [{ proba := some (Real.log (1377135/301)), pre := [' ','b',' '], suffix := ([] : List Char), letter := [], probaSuffix := some (0:ℝ) }] (some (Real.log (1377135/301)))
      = searchLoop lmW mmW 0 1 cacheWL 18
      [{ proba := some (Real.log (7575/2) - Real.log (15/2) + Real.log (1818/1505)), pre := [' ','b',' '], suffix := ([] : List Char), letter := [], probaSuffix := some (0:ℝ) }] [{ proba := some (Real.log (1377135/301)), pre := [' ','b',' '], suffix := ([] : List Char), letter := [], probaSuffix := some (0:ℝ) }] (some (Real.log (1377135/301))) := by
    rw [show (19:ℕ) = 18+1 from rfl, searchLoop, popMin_single]
    try dsimp only
    rw [if_neg (show ¬ ([' '] : List Char) = [] from by decide)]
    simp only [rfSub, Except.bind, bind]
    rw [expandC1W]
    simp only [Except.bind, bind, List.foldl, rfAdd, zero_add, add_zero,
      cmpE1, cmpE2, cmpE3, cmpE4, if_true, if_false,
      List.nil_append, List.cons_append, List.append_nil, List.singleton_append]
  rw [step2]
  have step3 : searchLoop lmW mmW 0 1 cacheWL 18
      [{ proba := some (Real.log (7575/2) - Real.log (15/2) + Real.log (1818/1505)), pre := [' ','b',' '], suffix := ([] : List Char), letter := [], probaSuffix := some (0:ℝ) }] [{ proba := some (Real.log (1377135/301)), pre := [' ','b',' '], suffix := ([] : List Char), letter := [], probaSuffix := some (0:ℝ) }] (some (Real.log (1377135/301)))
      = searchLoop lmW mmW 0 1 cacheWL 17
      [] [{ proba := some (Real.log (1377135/301)), pre := [' ','b',' '], suffix := ([] : List Char), letter := [], probaSuffix := some (0:ℝ) }, { proba := some (Real.log (7575/2) - Real.log (15/2) + Real.log (1818/1505)), pre := [' ','b',' '], suffix := ([] : List Char), letter := [], probaSuffix := some (0:ℝ) }] (some (Real.log (7575/2) - Real.log (15/2) + Real.log (1818/1505))) := by
    rw [show (18:ℕ) = 17+1 from rfl, searchLoop, popMin_single]
    try dsimp only
    rw [if_pos (show ([] : List Char) = [] from rfl)]
    simp only [rfAdd]
    rw [if_pos cmpXaccLe, if_pos cmpXaccLt]
    simp only [List.cons_append, List.nil_append, List.singleton_append]
  rw [step3]
  have step4 : searchLoop lmW mmW 0 1 cacheWL 17
      [] [{ proba := some (Real.log (1377135/301)), pre := [' ','b',' '], suffix := ([] : List Char), letter := [], probaSuffix := some (0:ℝ) }, { proba := some (Real.log (7575/2) - Real.log (15/2) + Real.log (1818/1505)), pre := [' ','b',' '], suffix := ([] : List Char), letter := [], probaSuffix := some (0:ℝ) }] (some (Real.log (7575/2) - Real.log (15/2) + Real.log (1818/1505)))
      = Except.ok ([{ proba := some (Real.log (1377135/301)), pre := [' ','b',' '], suffix := ([] : List Char), letter := [], probaSuffix := some (0:ℝ) }, { proba := some (Real.log (7575/2) - Real.log (15/2) + Real.log (1818/1505)), pre := [' ','b',' '], suffix := ([] : List Char), letter := [], probaSuffix := some (0:ℝ) }], some (Real.log (7575/2) - Real.log (15/2) + Real.log (1818/1505))) := by
    rw [show (17:ℕ) = 16+1 from rfl, searchLoop]
    rfl
  rw [step4]
  simp only [Except.map, resultMap, List.foldl, rfAdd, add_zero, cmpBfin, cmpXfin, if_true, if_false,
    dictInsert, List.lookup, Option.isSome, List.map, List.nil_append, List.drop,
    List.dropLast, Prod.fst]
lemma cmpO1b : ¬ rfLt (some (Real.log (24788430/301))) (some (Real.log (1377135/301) + Real.log (5/2))) := by
  simp only [rfLt]
  apply not_lt.mpr
  apply expLe
  norm_num [Real.exp_sub, Real.exp_add, Real.exp_neg, Real.exp_log]

lemma cmpO2b : rfLt (some (Real.log (61971075/12943))) (some (Real.log (1377135/301) + Real.log (5/2))) := by
  simp only [rfLt]
  apply expLt
  norm_num [Real.exp_sub, Real.exp_add, Real.exp_neg, Real.exp_log]

lemma cmpO3b : ¬ rfLt (some (Real.log (20657025/602))) (some (Real.log (1377135/301) + Real.log (5/2))) := by
  simp only [rfLt]
  apply not_lt.mpr
  apply expLe
  norm_num [Real.exp_sub, Real.exp_add, Real.exp_neg, Real.exp_log]

lemma cmpO4b : rfLt (some (Real.log (7575/2))) (some (Real.log (1377135/301) + Real.log (5/2))) := by
  simp only [rfLt]
  apply expLt
  norm_num [Real.exp_sub, Real.exp_add, Real.exp_neg, Real.exp_log]

lemma cmpE1b : ¬ rfLt (some (Real.log (7575/2) - Real.log (15/2) + Real.log (13635/301))) (some (Real.log (1377135/301) + Real.log (5/2))) := by
  simp only [rfLt]
  apply not_lt.mpr
  apply expLe
  norm_num [Real.exp_sub, Real.exp_add, Real.exp_neg, Real.exp_log]

lemma cmpE2b : ¬ rfLt (some (Real.log (7575/2) - Real.log (15/2) + Real.log (477225/2))) (some (Real.log (1377135/301) + Real.log (5/2))) := by
  simp only [rfLt]
  apply not_lt.mpr
  apply expLe
  norm_num [Real.exp_sub, Real.exp_add, Real.exp_neg, Real.exp_log]

lemma cmpE3b : ¬ rfLt (some (Real.log (7575/2) - Real.log (15/2) + Real.log (22725/4))) (some (Real.log (1377135/301) + Real.log (5/2))) := by
  simp only [rfLt]
  apply not_lt.mpr
  apply expLe
  norm_num [Real.exp_sub, Real.exp_add, Real.exp_neg, Real.exp_log]

lemma cmpE4b : rfLt (some (Real.log (7575/2) - Real.log (15/2) + Real.log (1818/1505))) (some (Real.log (1377135/301) + Real.log (5/2))) := by
  simp only [rfLt]
  apply expLt
  norm_num [Real.exp_sub, Real.exp_add, Real.exp_neg, Real.exp_log]

lemma cmpXaccLeb : rfLe (some (Real.log (7575/2) - Real.log (15/2) + Real.log (1818/1505))) (some (Real.log (1377135/301) + Real.log (5/2))) := by
  simp only [rfLe]
  apply expLe
  norm_num [Real.exp_sub, Real.exp_add, Real.exp_neg, Real.exp_log]

lemma cmpG1b : ¬ rfLt (some (Real.log (61971075/12943) - Real.log (13635/301) + Real.log (24788430/301))) (some (Real.log (7575/2) - Real.log (15/2) + Real.log (1818/1505) + Real.log (5/2))) := by
  simp only [rfLt]
  apply not_lt.mpr
  apply expLe
  norm_num [Real.exp_sub, Real.exp_add, Real.exp_neg, Real.exp_log]

lemma cmpG2b : ¬ rfLt (some (Real.log (61971075/12943) - Real.log (13635/301) + Real.log (433797525/301))) (some (Real.log (7575/2) - Real.log (15/2) + Real.log (1818/1505) + Real.log (5/2))) := by
  simp only [rfLt]
  apply not_lt.mpr
  apply expLe
  norm_num [Real.exp_sub, Real.exp_add, Real.exp_neg, Real.exp_log]

lemma cmpG3b : ¬ rfLt (some (Real.log (61971075/12943) - Real.log (13635/301) + Real.log (20657025/181202))) (some (Real.log (7575/2) - Real.log (15/2) + Real.log (1818/1505) + Real.log (5/2))) := by
  simp only [rfLt]
  apply not_lt.mpr
  apply expLe
  norm_num [Real.exp_sub, Real.exp_add, Real.exp_neg, Real.exp_log]

lemma cmpG4b : rfLt (some (Real.log (61971075/12943) - Real.log (13635/301) + Real.log (7575/602))) (some (Real.log (7575/2) - Real.log (15/2) + Real.log (1818/1505) + Real.log (5/2))) := by
  simp only [rfLt]
  apply expLt
  norm_num [Real.exp_sub, Real.exp_add, Real.exp_neg, Real.exp_log]

lemma cmpH1b : ¬ rfLt (some (Real.log (61971075/12943) - Real.log (13635/301) + Real.log (7575/602) - Real.log (15/2) + Real.log (13635/301))) (some (Real.log (7575/2) - Real.log (15/2) + Real.log (1818/1505) + Real.log (5/2))) := by
  simp only [rfLt]
  apply not_lt.mpr
  apply expLe
  norm_num [Real.exp_sub, Real.exp_add, Real.exp_neg, Real.exp_log]

lemma cmpH2b : ¬ rfLt (some (Real.log (61971075/12943) - Real.log (13635/301) + Real.log (7575/602) - Real.log (15/2) + Real.log (477225/2))) (some (Real.log (7575/2) - Real.log (15/2) + Real.log (1818/1505) + Real.log (5/2))) := by
  simp only [rfLt]
  apply not_lt.mpr
  apply expLe
  norm_num [Real.exp_sub, Real.exp_add, Real.exp_neg, Real.exp_log]

lemma cmpH3b : ¬ rfLt (some (Real.log (61971075/12943) - Real.log (13635/301) + Real.log (7575/602) - Real.log (15/2) + Real.log (22725/4))) (some (Real.log (7575/2) - Real.log (15/2) + Real.log (1818/1505) + Real.log (5/2))) := by
  simp only [rfLt]
  apply not_lt.mpr
  apply expLe
  norm_num [Real.exp_sub, Real.exp_add, Real.exp_neg, Real.exp_log]

lemma cmpH4b : rfLt (some (Real.log (61971075/12943) - Real.log (13635/301) + Real.log (7575/602) - Real.log (15/2) + Real.log (1818/1505))) (some (Real.log (7575/2) - Real.log (15/2) + Real.log (1818/1505) + Real.log (5/2))) := by
  simp only [rfLt]
  apply expLt
  norm_num [Real.exp_sub, Real.exp_add, Real.exp_neg, Real.exp_log]

lemma cmpMaccLe : rfLe (some (Real.log (61971075/12943) - Real.log (13635/301) + Real.log (7575/602) - Real.log (15/2) + Real.log (1818/1505))) (some (Real.log (7575/2) - Real.log (15/2) + Real.log (1818/1505) + Real.log (5/2))) := by
  simp only [rfLe]
  apply expLe
  norm_num [Real.exp_sub, Real.exp_add, Real.exp_neg, Real.exp_log]

lemma cmpMaccLt : rfLt (some (Real.log (61971075/12943) - Real.log (13635/301) + Real.log (7575/602) - Real.log (15/2) + Real.log (1818/1505))) (some (Real.log (7575/2) - Real.log (15/2) + Real.log (1818/1505))) := by
  simp only [rfLt]
  apply expLt
  norm_num [Real.exp_sub, Real.exp_add, Real.exp_neg, Real.exp_log]

lemma cmpBfin2 : ¬ rfLe (some (Real.log (1377135/301))) (some (Real.log (61971075/12943) - Real.log (13635/301) + Real.log (7575/602) - Real.log (15/2) + Real.log (1818/1505) + Real.log (5/2))) := by
  simp only [rfLe]
  apply not_le.mpr
  apply expLt
  norm_num [Real.exp_sub, Real.exp_add, Real.exp_neg, Real.exp_log]

lemma cmpXfin2 : ¬ rfLe (some (Real.log (7575/2) - Real.log (15/2) + Real.log (1818/1505))) (some (Real.log (61971075/12943) - Real.log (13635/301) + Real.log (7575/602) - Real.log (15/2) + Real.log (1818/1505) + Real.log (5/2))) := by
  simp only [rfLe]
  apply not_le.mpr
  apply expLt
  norm_num [Real.exp_sub, Real.exp_add, Real.exp_neg, Real.exp_log]

lemma cmpMfin : rfLe (some (Real.log (61971075/12943) - Real.log (13635/301) + Real.log (7575/602) - Real.log (15/2) + Real.log (1818/1505))) (some (Real.log (61971075/12943) - Real.log (13635/301) + Real.log (7575/602) - Real.log (15/2) + Real.log (1818/1505) + Real.log (5/2))) := by
  simp only [rfLe]
  apply expLe
  norm_num [Real.exp_sub, Real.exp_add, Real.exp_neg, Real.exp_log]

lemma nodeLtO4O2 : nodeLt { proba := some (Real.log (7575/2)), pre := [' ','b'], suffix := [' '], letter := [], probaSuffix := some (Real.log (15/2)) } { proba := some (Real.log (61971075/12943)), pre := [' ','a'], suffix := ['b',' '], letter := ['a'], probaSuffix := some (Real.log (13635/301)) } := by
  simp only [nodeLt]
  rw [if_neg (show ¬ rfEqv (some (Real.log (7575/2))) (some (Real.log (61971075/12943))) from by
    simp only [rfEqv]
    apply expNe
    norm_num [Real.exp_sub, Real.exp_add, Real.exp_neg, Real.exp_log])]
  simp only [rfLt]
  apply expLt
  norm_num [Real.exp_sub, Real.exp_add, Real.exp_neg, Real.exp_log]

lemma nodeLtXO2 : nodeLt { proba := some (Real.log (7575/2) - Real.log (15/2) + Real.log (1818/1505)), pre := [' ','b',' '], suffix := ([] : List Char), letter := [], probaSuffix := some (0:ℝ) } { proba := some (Real.log (61971075/12943)), pre := [' ','a'], suffix := ['b',' '], letter := ['a'], probaSuffix := some (Real.log (13635/301)) } := by
  simp only [nodeLt]
  rw [if_neg (show ¬ rfEqv (some (Real.log (7575/2) - Real.log (15/2) + Real.log (1818/1505))) (some (Real.log (61971075/12943))) from by
    simp only [rfEqv]
    apply expNe
    norm_num [Real.exp_sub, Real.exp_add, Real.exp_neg, Real.exp_log])]
  simp only [rfLt]
  apply expLt
  norm_num [Real.exp_sub, Real.exp_add, Real.exp_neg, Real.exp_log]

theorem runF2 :
    (noisy_channel ['b'] lmW mmW (Real.log (5/2)) 20 1).map (List.map Prod.fst)
      = .ok [[ 'a','b' ]] := by
  simp only [noisy_channel, List.cons_append, List.nil_append]
  rw [baseW]
  simp only [Except.bind, bind, rfScale, Option.map_some', mul_one]
  rw [cacheW_list]
  simp only [Except.bind, bind]
  have step1 : searchLoop lmW mmW (Real.log (5/2)) 1 cacheWL 20
      [{ proba := some (Real.log (1377135/301)), pre := [' '], suffix := ['b',' '], letter := [], probaSuffix := some (Real.log (1377135/301)) }] [{ proba := some (Real.log (1377135/301)), pre := [' ','b',' '], suffix := ([] : List Char), letter := [], probaSuffix := some (0:ℝ) }] (some (Real.log (1377135/301)))
      = searchLoop lmW mmW (Real.log (5/2)) 1 cacheWL 19
      [{ proba := some (Real.log (61971075/12943)), pre := [' ','a'], suffix := ['b',' '], letter := ['a'], probaSuffix := some (Real.log (13635/301)) }, { proba := some (Real.log (7575/2)), pre := [' ','b'], suffix := [' '], letter := [], probaSuffix := some (Real.log (15/2)) }] [{ proba := some (Real.log (1377135/301)), pre := [' ','b',' '], suffix := ([] : List Char), letter := [], probaSuffix := some (0:ℝ) }] (some (Real.log (1377135/301))) := by
    rw [show (20:ℕ) = 19+1 from rfl, searchLoop, popMin_single]
    try dsimp only
    rw [if_neg (show ¬ (['b',' '] : List Char) = [] from by decide)]
    simp only [rfSub, Except.bind, bind, sub_self]
    rw [expandRootW]
    simp only [Except.bind, bind, List.foldl, rfAdd, zero_add, add_zero,
      cmpO1b, cmpO2b, cmpO3b, cmpO4b, if_true, if_false,
      List.nil_append, List.cons_append, List.append_nil, List.singleton_append]
  rw [step1]
  have step2 : searchLoop lmW mmW (Real.log (5/2)) 1 cacheWL 19
      [{ proba := some (Real.log (61971075/12943)), pre := [' ','a'], suffix := ['b',' '], letter := ['a'], probaSuffix := some (Real.log (13635/301)) }, { proba := some (Real.log (7575/2)), pre := [' ','b'], suffix := [' '], letter := [], probaSuffix := some (Real.log (15/2)) }] [{ proba := some (Real.log (1377135/301)), pre := [' ','b',' '], suffix := ([] : List Char), letter := [], probaSuffix := some (0:ℝ) }] (some (Real.log (1377135/301)))
      = searchLoop lmW mmW (Real.log (5/2)) 1 cacheWL 18
      [{ proba := some (Real.log (61971075/12943)), pre := [' ','a'], suffix := ['b',' '], letter := ['a'], probaSuffix := some (Real.log (13635/301)) }, { proba := some (Real.log (7575/2) - Real.log (15/2) + Real.log (1818/1505)), pre := [' ','b',' '], suffix := ([] : List Char), letter := [], probaSuffix := some (0:ℝ) }] [{ proba := some (Real.log (1377135/301)), pre := [' ','b',' '], suffix := ([] : List Char), letter := [], probaSuffix := some (0:ℝ) }] (some (Real.log (1377135/301))) := by
    rw [show (19:ℕ) = 18+1 from rfl, searchLoop, popMin_pair_swap _ _ nodeLtO4O2]
    try dsimp only
    rw [if_neg (show ¬ ([' '] : List Char) = [] from by decide)]
    simp only [rfSub, Except.bind, bind]
    rw [expandC1W]
    simp only [Except.bind, bind, List.foldl, rfAdd, zero_add, add_zero,
      cmpE1b, cmpE2b, cmpE3b, cmpE4b, if_true, if_false,
      List.nil_append, List.cons_append, List.append_nil, List.singleton_append]
  rw [step2]
  have step3 : searchLoop lmW mmW (Real.log (5/2)) 1 cacheWL 18
      [{ proba := some (Real.log (61971075/12943)), pre := [' ','a'], suffix := ['b',' '], letter := ['a'], probaSuffix := some (Real.log (13635/301)) }, { proba := some (Real.log (7575/2) - Real.log (15/2) + Real.log (1818/1505)), pre := [' ','b',' '], suffix := ([] : List Char), letter := [], probaSuffix := some (0:ℝ) }] [{ proba := some (Real.log (1377135/301)), pre := [' ','b',' '], suffix := ([] : List Char), letter := [], probaSuffix := some (0:ℝ) }] (some (Real.log (1377135/301)))
      = searchLoop lmW mmW (Real.log (5/2)) 1 cacheWL 17
      [{ proba := some (Real.log (61971075/12943)), pre := [' ','a'], suffix := ['b',' '], letter := ['a'], probaSuffix := some (Real.log (13635/301)) }] [{ proba := some (Real.log (1377135/301)), pre := [' ','b',' '], suffix := ([] : List Char), letter := [], probaSuffix := some (0:ℝ) }, { proba := some (Real.log (7575/2) - Real.log (15/2) + Real.log (1818/1505)), pre := [' ','b',' '], suffix := ([] : List Char), letter := [], probaSuffix := some (0:ℝ) }] (some (Real.log (7575/2) - Real.log (15/2) + Real.log (1818/1505))) := by
    rw [show (18:ℕ) = 17+1 from rfl, searchLoop, popMin_pair_swap _ _ nodeLtXO2]
    try dsimp only
    rw [if_pos (show ([] : List Char) = [] from rfl)]
    simp only [rfAdd]
    rw [if_pos cmpXaccLeb, if_pos cmpXaccLt]
    simp only [List.cons_append, List.nil_append, List.singleton_append]
  rw [step3]
  have step4 : searchLoop lmW mmW (Real.log (5/2)) 1 cacheWL 17
      [{ proba := some (Real.log (61971075/12943)), pre := [' ','a'], suffix := ['b',' '], letter := ['a'], probaSuffix := some (Real.log (13635/301)) }] [{ proba := some (Real.log (1377135/301)), pre := [' ','b',' '], suffix := ([] : List Char), letter := [], probaSuffix := some (0:ℝ) }, { proba := some (Real.log (7575/2) - Real.log (15/2) + Real.log (1818/1505)), pre := [' ','b',' '], suffix := ([] : List Char), letter := [], probaSuffix := some (0:ℝ) }] (some (Real.log (7575/2) - Real.log (15/2) + Real.log (1818/1505)))
      = searchLoop lmW mmW (Real.log (5/2)) 1 cacheWL 16
      [{ proba := some (Real.log (61971075/12943) - Real.log (13635/301) + Real.log (7575/602)), pre := [' ','a','b'], suffix := [' '], letter := [], probaSuffix := some (Real.log (15/2)) }] [{ proba := some (Real.log (1377135/301)), pre := [' ','b',' '], suffix := ([] : List Char), letter := [], probaSuffix := some (0:ℝ) }, { proba := some (Real.log (7575/2) - Real.log (15/2) + Real.log (1818/1505)), pre := [' ','b',' '], suffix := ([] : List Char), letter := [], probaSuffix := some (0:ℝ) }] (some (Real.log (7575/2) - Real.log (15/2) + Real.log (1818/1505))) := by
    rw [show (17:ℕ) = 16+1 from rfl, searchLoop, popMin_single]
    try dsimp only
    rw [if_neg (show ¬ (['b',' '] : List Char) = [] from by decide)]
    simp only [rfSub, Except.bind, bind]
    rw [expandYaW]
    simp only [Except.bind, bind, List.foldl, rfAdd, zero_add, add_zero,
      cmpG1b, cmpG2b, cmpG3b, cmpG4b, if_true, if_false,
      List.nil_append, List.cons_append, List.append_nil, List.singleton_append]
  rw [step4]
  have step5 : searchLoop lmW mmW (Real.log (5/2)) 1 cacheWL 16
      [{ proba := some (Real.log (61971075/12943) - Real.log (13635/301) + Real.log (7575/602)), pre := [' ','a','b'], suffix := [' '], letter := [], probaSuffix := some (Real.log (15/2)) }] [{ proba := some (Real.log (1377135/301)), pre := [' ','b',' '], suffix := ([] : List Char), letter := [], probaSuffix := some (0:ℝ) }, { proba := some (Real.log (7575/2) - Real.log (15/2) + Real.log (1818/1505)), pre := [' ','b',' '], suffix := ([] : List Char), letter := [], probaSuffix := some (0:ℝ) }] (some (Real.log (7575/2) - Real.log (15/2) + Real.log (1818/1505)))
      = searchLoop lmW mmW (Real.log (5/2)) 1 cacheWL 15
      [{ proba := some (Real.log (61971075/12943) - Real.log (13635/301) + Real.log (7575/602) - Real.log (15/2) + Real.log (1818/1505)), pre := [' ','a','b',' '], suffix := ([] : List Char), letter := [], probaSuffix := some (0:ℝ) }] [{ proba := some (Real.log (1377135/301)), pre := [' ','b',' '], suffix := ([] : List Char), letter := [], probaSuffix := some (0:ℝ) }, { proba := some (Real.log (7575/2) - Real.log (15/2) + Real.log (1818/1505)), pre := [' ','b',' '], suffix := ([] : List Char), letter := [], probaSuffix := some (0:ℝ) }] (some (Real.log (7575/2) - Real.log (15/2) + Real.log (1818/1505))) := by
    rw [show (16:ℕ) = 15+1 from rfl, searchLoop, popMin_single]
    try dsimp only
    rw [if_neg (show ¬ ([' '] : List Char) = [] from by decide)]
    simp only [rfSub, Except.bind, bind]
    rw [expandUW]
    simp only [Except.bind, bind, List.foldl, rfAdd, zero_add, add_zero,
      cmpH1b, cmpH2b, cmpH3b, cmpH4b, if_true, if_false,
      List.nil_append, List.cons_append, List.append_nil, List.singleton_append]
  rw [step5]
  have step6 : searchLoop lmW mmW (Real.log (5/2)) 1 cacheWL 15
      [{ proba := some (Real.log (61971075/12943) - Real.log (13635/301) + Real.log (7575/602) - Real.log (15/2) + Real.log (1818/1505)), pre := [' ','a','b',' '], suffix := ([] : List Char), letter := [], probaSuffix := some (0:ℝ) }] [{ proba := some (Real.log (1377135/301)), pre := [' ','b',' '], suffix := ([] : List Char), letter := [], probaSuffix := some (0:ℝ) }, { proba := some (Real.log (7575/2) - Real.log (15/2) + Real.log (1818/1505)), pre := [' ','b',' '], suffix := ([] : List Char), letter := [], probaSuffix := some (0:ℝ) }] (some (Real.log (7575/2) - Real.log (15/2) + Real.log (1818/1505)))
      = searchLoop lmW mmW (Real.log (5/2)) 1 cacheWL 14
      [] [{ proba := some (Real.log (1377135/301)), pre := [' ','b',' '], suffix := ([] : List Char), letter := [], probaSuffix := some (0:ℝ) }, { proba := some (Real.log (7575/2) - Real.log (15/2) + Real.log (1818/1505)), pre := [' ','b',' '], suffix := ([] : List Char), letter := [], probaSuffix := some (0:ℝ) }, { proba := some (Real.log (61971075/12943) - Real.log (13635/301) + Real.log (7575/602) - Real.log (15/2) + Real.log (1818/1505)), pre := [' ','a','b',' '], suffix := ([] : List Char), letter := [], probaSuffix := some (0:ℝ) }] (some (Real.log (61971075/12943) - Real.log (13635/301) + Real.log (7575/602) - Real.log (15/2) + Real.log (1818/1505))) := by
    rw [show (15:ℕ) = 14+1 from rfl, searchLoop, popMin_single]
    try dsimp only
    rw [if_pos (show ([] : List Char) = [] from rfl)]
    simp only [rfAdd]
    rw [if_pos cmpMaccLe, if_pos cmpMaccLt]
    simp only [List.cons_append, List.nil_append, List.singleton_append]
  rw [step6]
  have step7 : searchLoop lmW mmW (Real.log (5/2)) 1 cacheWL 14
      [] [{ proba := some (Real.log (1377135/301)), pre := [' ','b',' '], suffix := ([] : List Char), letter := [], probaSuffix := some (0:ℝ) }, { proba := some (Real.log (7575/2) - Real.log (15/2) + Real.log (1818/1505)), pre := [' ','b',' '], suffix := ([] : List Char), letter := [], probaSuffix := some (0:ℝ) }, { proba := some (Real.log (61971075/12943) - Real.log (13635/301) + Real.log (7575/602) - Real.log (15/2) + Real.log (1818/1505)), pre := [' ','a','b',' '], suffix := ([] : List Char), letter := [], probaSuffix := some (0:ℝ) }] (some (Real.log (61971075/12943) - Real.log (13635/301) + Real.log (7575/602) - Real.log (15/2) + Real.log (1818/1505)))
      = Except.ok ([{ proba := some (Real.log (1377135/301)), pre := [' ','b',' '], suffix := ([] : List Char), letter := [], probaSuffix := some (0:ℝ) }, { proba := some (Real.log (7575/2) - Real.log (15/2) + Real.log (1818/1505)), pre := [' ','b',' '], suffix := ([] : List Char), letter := [], probaSuffix := some (0:ℝ) }, { proba := some (Real.log (61971075/12943) - Real.log (13635/301) + Real.log (7575/602) - Real.log (15/2) + Real.log (1818/1505)), pre := [' ','a','b',' '], suffix := ([] : List Char), letter := [], probaSuffix := some (0:ℝ) }], some (Real.log (61971075/12943) - Real.log (13635/301) + Real.log (7575/602) - Real.log (15/2) + Real.log (1818/1505))) := by
    rw [show (14:ℕ) = 13+1 from rfl, searchLoop]
    rfl
  rw [step7]
  simp only [Except.map, resultMap, List.foldl, rfAdd, cmpBfin2, cmpXfin2, cmpMfin, if_true, if_false,
    dictInsert, List.lookup, Option.isSome, List.map, List.nil_append, List.drop,
    List.dropLast, Prod.fst]

/-! ## Monotonicity of the final acceptance filter -/

lemma lookup_isSome_iff_mem (r : List (List Char × RF)) (k : List Char) :
    (r.lookup k).isSome ↔ k ∈ r.map Prod.fst := by
  induction r with
  | nil => simp [List.lookup]
  | cons p t ih =>
    rcases p with ⟨a, b⟩
    by_cases h : k = a
    · subst h
      simp [List.lookup]
    · have hb : (k == a) = false := beq_eq_false_iff_ne.mpr h
      simp [List.lookup, hb, ih, h]

lemma dictInsert_keys_mem (r : List (List Char × RF)) (k : List Char) (v : RF)
    (k' : List Char) :
    k' ∈ (dictInsert r k v).map Prod.fst ↔ k' ∈ r.map Prod.fst ∨ k' = k := by
  unfold dictInsert
  by_cases h : (r.lookup k).isSome
  · rw [if_pos h]
    have hk : k ∈ r.map Prod.fst := (lookup_isSome_iff_mem r k).mp h
    have hmap : (r.map (fun p => if p.1 = k then (p.1, v) else p)).map Prod.fst
        = r.map Prod.fst := by
      rw [List.map_map]
      apply List.map_congr_left
      intro p _
      by_cases hp : p.1 = k <;> simp [hp]
    rw [hmap]
    constructor
    · exact Or.inl
    · rintro (hh | rfl)
      · exact hh
      · exact hk
  · rw [if_neg h]
    simp

lemma rfLe_bound_mono (p best : RF) (f1 f2 : ℝ) (h : f1 ≤ f2)
    (hle : rfLe p (rfAdd best (some f1))) : rfLe p (rfAdd best (some f2)) := by
  cases p with
  | none => cases best <;> simp_all [rfLe, rfAdd]
  | some x =>
    cases best with
    | none => simp_all [rfLe, rfAdd]
    | some b =>
      simp only [rfLe, rfAdd] at *
      linarith

open Classical in
lemma resultFold_keys_mono (best : RF) (f1 f2 : ℝ) (h : f1 ≤ f2) :
    ∀ (cands : List SNode) (r1 r2 : List (List Char × RF)),
      (∀ k, k ∈ r1.map Prod.fst → k ∈ r2.map Prod.fst) →
      ∀ k, k ∈ (cands.foldl (fun r c =>
          if rfLe c.proba (rfAdd best (some f1)) then
            dictInsert r (c.pre.drop 1).dropLast c.proba
          else r) r1).map Prod.fst →
        k ∈ (cands.foldl (fun r c =>
          if rfLe c.proba (rfAdd best (some f2)) then
            dictInsert r (c.pre.drop 1).dropLast c.proba
          else r) r2).map Prod.fst := by
  intro cands
  induction cands with
  | nil => intro r1 r2 hsub k hk; exact hsub k hk
  | cons c t ih =>
    intro r1 r2 hsub k hk
    simp only [List.foldl] at hk ⊢
    by_cases h1 : rfLe c.proba (rfAdd best (some f1))
    · rw [if_pos h1] at hk
      rw [if_pos (rfLe_bound_mono _ _ _ _ h h1)]
      refine ih _ _ ?_ k hk
      intro k' hk'
      rw [dictInsert_keys_mem] at hk' ⊢
      rcases hk' with hh | rfl
      · exact Or.inl (hsub k' hh)
      · exact Or.inr rfl
    · rw [if_neg h1] at hk
      by_cases h2 : rfLe c.proba (rfAdd best (some f2))
      · rw [if_pos h2]
        refine ih _ _ ?_ k hk
        intro k' hk'
        rw [dictInsert_keys_mem]
        exact Or.inl (hsub k' hk')
      · rw [if_neg h2]
        exact ih _ _ hsub k hk

/-! ## Evaluation lemmas for the notebook's own deletion model -/

lemma mmAbra_d_a (ctx : List Char) : mmAbra.predict_proba ctx 'a' = 43/60 := by
  simp only [MissingLetterModel.predict_proba, mmAbra]
  rw [show localContext 0 ctx = [] from by simp [localContext]]
  rw [show (MissingLetterModel.mk 0 (3/10) 1
    [([ 'a','b','r','a','c','a','d','a','b','r','a' ],
      [ 'a','b','r','-','c','-','d','-','b','r','-' ])]).missedCount [] 'a' = 4 from by decide]
  rw [show (MissingLetterModel.mk 0 (3/10) 1
    [([ 'a','b','r','a','c','a','d','a','b','r','a' ],
      [ 'a','b','r','-','c','-','d','-','b','r','-' ])]).totalCount [] 'a' = 5 from by decide]
  norm_num

/-! ## Claim-side evaluations for C2 and C4 -/

lemma claimedZeroW : claimedZeroDeletionScore ['b'] lmW mmW
    = .ok (some (Real.log (183618/301))) := by
  simp only [claimedZeroDeletionScore, LanguageNgramModel.single_log_proba, langSLPGo,
    List.cons_append, List.nil_append]
  rw [ppW_sp, ppW_sb]
  simp [Series.get, List.lookup, claimedNoDeletionLogProba, mmW_d_b, mmW_d_s,
    rfOfQ, rfLog, rfAdd, rfNeg, Except.bind, bind]
  apply expEq
  norm_num [Real.exp_add, Real.exp_neg, Real.exp_log]

lemma claimedCacheW1 : claimedCacheEntry lmW mmW ['b',' '] 1
    = .ok (some (Real.log (18/5))) := by
  simp only [claimedCacheEntry, LanguageNgramModel.single_log_proba, langSLPGo,
    List.length_cons, List.length_nil]
  rw [show (List.drop (0+1+1 - 1) (['b',' '] : List Char)) = [' '] from by decide]
  rw [ppW_nil]
  simp [Series.get, List.lookup, claimedNoDeletionLogProba, mmW_d_s,
    rfOfQ, rfLog, rfAdd, rfNeg, Except.bind, bind]
  apply expEq
  norm_num [Real.exp_add, Real.exp_neg, Real.exp_log]

/-! ## Claim theorems -/

/-- Claim C1.  Code evaluation at the failing input: on the notebook's own
trained deletion model (`d('a') = 43/60`), `single_log_proba('', 'a', '-')`
returns `log (1 - 43/60) = log (17/60)` — the code applies `pp = 1 - pp`
exactly when the actual token is the placeholder — whereas the claim (and
the function's docstring) require `log p_del = log (43/60)` for a deleted
position.  The two values differ. -/
theorem single_log_proba_inverted_evaluation :
    mmAbra.single_log_proba [] ['a'] (some ['-']) = Real.log ((17:ℝ)/60) ∧
    claimedDistortionLogProba mmAbra [] [('a', '-')] = Real.log ((43:ℝ)/60) ∧
    Real.log ((17:ℝ)/60) ≠ Real.log ((43:ℝ)/60) := by
  refine ⟨?_, ?_, ?_⟩
  · simp [MissingLetterModel.single_log_proba, missedSLPGo, mmAbra_d_a]
    try norm_num
  · simp [claimedDistortionLogProba, mmAbra_d_a]
    try norm_num
  · apply expNe
    rw [Real.exp_log (by norm_num), Real.exp_log (by norm_num)]
    norm_num

/-- Claim C2.  Code evaluation at the failing input: for the trained pair
`lmW`/`mmW` and the query `'b'`, the baseline score `noisy_channel` seeds its
candidate list with is `log (1377135/301)` (its deletion-model part is
`-log d('b') - log d(' ')`, the *deletion* probability of every kept
letter), while the cost of the query with zero assumed deletions is
`log (183618/301)` (deletion part `-log (1-d('b')) - log (1-d(' '))`).
The two differ, so the baseline is not the zero-deletion cost. -/
theorem baseline_score_not_zero_deletion_cost :
    baselineScore ['b'] lmW mmW = .ok (some (Real.log (1377135/301))) ∧
    claimedZeroDeletionScore ['b'] lmW mmW = .ok (some (Real.log (183618/301))) ∧
    Real.log ((1377135:ℝ)/301) ≠ Real.log ((183618:ℝ)/301) := by
  refine ⟨baseW, claimedZeroW, ?_⟩
  apply expNe
  rw [Real.exp_log (by norm_num), Real.exp_log (by norm_num)]
  norm_num

/-- Claim C4.  Code evaluation at the failing input: for the trained pair
`lmW`/`mmW` and query `'b'` (padded `'b '`), the cache entry for
remaining-suffix length 1 is computed from the length-1 *prefix* `'b'` of the
padded query with the inverted `single_log_proba` — it equals
`log 3 + log (1/d('b')) = log (15/2)` — while the spec's value for length 1
is the cost of the length-1 *suffix* `' '` with no further deletions,
`log 3 + log (1/(1-d(' '))) = log (18/5)`.  The two differ. -/
theorem cache_entry_uses_prefix_not_suffix :
    noisyCacheEntry lmW mmW ['b',' '] 1 = .ok (some (Real.log (15/2))) ∧
    claimedCacheEntry lmW mmW ['b',' '] 1 = .ok (some (Real.log (18/5))) ∧
    Real.log ((15:ℝ)/2) ≠ Real.log ((18:ℝ)/5) := by
  refine ⟨cacheW1, claimedCacheW1, ?_⟩
  apply expNe
  rw [Real.exp_log (by norm_num), Real.exp_log (by norm_num)]
  norm_num

/-- Claim C6 counterexample.  With the trained pair `lmW`/`mmW`, the query
`'b'`, `optimism = 1`, `max_attempts = 20`, and freedoms
`f1 = 0 < f2 = log (5/2)`, the candidate-phrase set returned with the
smaller freedom is `{'b'}` while the one returned with the larger freedom is
`{'ab'}`: the larger freedom explores the insert-`'a'` branch, finds the
leaf `'ab'` with a much better score, and the improved best score then
expels `'b'` from the final acceptance window.  `{'b'} ⊄ {'ab'}`, so
decreasing `freedom` is not guaranteed to shrink the candidate set. -/
theorem noisy_channel_freedom_monotonicity_counterexample :
    (0:ℝ) < Real.log (5/2) ∧
    (noisy_channel ['b'] lmW mmW 0 20 1).map (List.map Prod.fst) = .ok [[ 'b' ]] ∧
    (noisy_channel ['b'] lmW mmW (Real.log (5/2)) 20 1).map (List.map Prod.fst)
      = .ok [[ 'a','b' ]] ∧
    ¬ ([[ 'b' ]] : List (List Char)) ⊆ [[ 'a','b' ]] :=
  ⟨Real.log_pos (by norm_num), runF1, runF2, by decide⟩

/-- Claim C6, as amended: the *final acceptance filter* of `noisy_channel`
is monotone in `freedom` — over a fixed candidate list and best score, every
phrase accepted with freedom `f1 ≤ f2` is also accepted with `f2`.  (The
full search is not monotone, because `freedom` also changes which
hypotheses are explored and which best score is found; see the
counterexample.) -/
theorem resultMap_monotone_in_freedom (cands : List SNode) (best : RF)
    (f1 f2 : ℝ) (h : f1 ≤ f2) (k : List Char)
    (hk : k ∈ (resultMap cands best f1).map Prod.fst) :
    k ∈ (resultMap cands best f2).map Prod.fst := by
  unfold resultMap at hk ⊢
  exact resultFold_keys_mono best f1 f2 h cands [] [] (fun k hh => hh) k hk

/-- Witness for `resultMap_monotone_in_freedom` at a concrete input. -/
theorem resultMap_monotone_in_freedom_witness :
    ((0:ℝ) ≤ 1) ∧
    ([] ∈ (resultMap [{ proba := some 0, pre := ['q'], suffix := [], letter := [], probaSuffix := some 0 }] (some 0) 0).map Prod.fst) ∧
    ([] ∈ (resultMap [{ proba := some 0, pre := ['q'], suffix := [], letter := [], probaSuffix := some 0 }] (some 0) 1).map Prod.fst) :=
  ⟨zero_le_one,
   by simp [resultMap, dictInsert, rfLe, rfAdd, List.lookup],
   resultMap_monotone_in_freedom _ _ 0 1 zero_le_one []
     (by simp [resultMap, dictInsert, rfLe, rfAdd, List.lookup])⟩

/-- Claim C5 counterexample.  `lmTiny` is a 1-gram model fitted on the
*non-empty* corpus `'a'`: the corpus is no longer than the order, so the
vocabulary comes out empty, `predict_proba` returns an empty series, and its
values sum to 0, not 1. -/
theorem predict_proba_not_normalized_short_corpus :
    lmTiny.corpus ≠ [] ∧ (lmTiny.predict_proba ['a']).sum ≠ 1 := by
  refine ⟨by decide, ?_⟩
  have h : lmTiny.predict_proba ['a'] = [] := by
    simp only [LanguageNgramModel.predict_proba, LanguageNgramModel.get_counts, lmTiny]
    rw [show getCountsAux ['a'] 1 0 1 ['a'] = [] from by
      simp only [getCountsAux]
      rw [show vocabOf ['a'] (0+1) = [] from by decide]
      rw [if_neg (show ¬ (0:ℚ) < 0 from by norm_num)]
      simp]
    simp [Series.divide]
  rw [h]
  simp [Series.sum]

/-- Claim C7 counterexample.  With the admissible configuration
`smoothing_missed = smoothing_total = 1` (and no training pairs), the
deletion model estimates `p_del = 1` for every letter, so the kept-letter
argument `1 - p_del` is 0 and the kept-letter cost `-log (1 - p_del)` is not
the logarithm of a positive number (numpy produces `inf`): costs are not
always finite. -/
theorem deletion_cost_not_always_finite :
    mmDeg.predict_proba [] 'a' = 1 ∧ ¬ (0 < 1 - mmDeg.predict_proba [] 'a') := by
  have h : mmDeg.predict_proba [] 'a' = 1 := by
    simp only [MissingLetterModel.predict_proba, mmDeg, MissingLetterModel.missedCount,
      MissingLetterModel.totalCount, localContext, List.map, List.sum]
    norm_num
  exact ⟨h, by rw [h]; norm_num⟩

/-! ## Frame effects of reads on the lazy count tables (claim C8) -/

/-- Claim C8 counterexample.  On the fitted table of `lmFr` (corpus
`' ab abx'`, whose final `'x'` occurs as a prediction target but never as a
context key), the `get_counts` read at context `' x'` — exactly the read
`noisy_channel('x', ...)` performs after consuming the first query letter —
materializes an empty counter under the key `'x'`: the table after the call
differs from the table before it, so the search does mutate a model field. -/
theorem get_counts_read_mutates_table :
    (langGetCountsSt (langFitTable lmFr.corpus 1) lmFr.vocabulary 1 1 [' ','x']).2
      ≠ langFitTable lmFr.corpus 1 := by decide

lemma table_lookup_append (t : Table) (k k' : List Char) (c : Counter) :
    (t ++ [(k', c)]).lookup k
      = match t.lookup k with
        | some v => some v
        | none => if k = k' then some c else none := by
  induction t with
  | nil =>
    by_cases h : k = k'
    · simp [List.lookup, h]
    · have hb : (k == k') = false := beq_eq_false_iff_ne.mpr h
      simp [List.lookup, hb, h]
  | cons p t ih =>
    rcases p with ⟨a, b⟩
    by_cases h : k = a
    · subst h
      simp [List.lookup]
    · have hb : (k == a) = false := beq_eq_false_iff_ne.mpr h
      simp only [List.cons_append, List.lookup, hb]
      exact ih

lemma tableRead_fst_stable (t : Table) (k' k : List Char) :
    (tableRead ((tableRead t k').2) k).1 = (tableRead t k).1 := by
  unfold tableRead
  cases h' : t.lookup k' with
  | some c => simp
  | none =>
    simp only
    rw [table_lookup_append]
    cases h : t.lookup k with
    | some v => simp
    | none =>
      by_cases hk : k = k'
      · simp [hk]
      · simp [hk]

lemma tableCount_read_stable (t : Table) (k' k : List Char) (tok : Char) :
    tableCount ((tableRead t k').2) k tok = tableCount t k tok := by
  unfold tableCount tableRead
  cases h' : t.lookup k' with
  | some c => simp
  | none =>
    simp only
    rw [table_lookup_append]
    cases h : t.lookup k with
    | some v => simp
    | none =>
      by_cases hk : k = k'
      · simp [hk, counterGet, List.lookup]
      · simp [hk]

/-- Claim C8, as amended: a `defaultdict` read can only *append an empty
counter* for an unseen key — every count a later read observes is unchanged,
and the series a stateful `get_counts` computes after any earlier read is
identical to the one computed before it.  Model outputs are therefore
unaffected even though the table object itself grows. -/
theorem table_reads_preserve_all_counts (t : Table) (k' k : List Char) (tok : Char)
    (vocab : List Char) (s : ℚ) (order : Nat) (ctx : List Char) :
    tableCount ((tableRead t k').2) k tok = tableCount t k tok ∧
    (langGetCountsSt ((tableRead t k').2) vocab s order ctx).1
      = (langGetCountsSt t vocab s order ctx).1 := by
  refine ⟨tableCount_read_stable t k' k tok, ?_⟩
  unfold langGetCountsSt
  simp only [tableRead_fst_stable]

/-! ## Properties of the sorted vocabulary and of `get_counts` (claim C5) -/

lemma mem_insertAsc (c x : Char) (l : List Char) :
    x ∈ insertAsc c l ↔ x = c ∨ x ∈ l := by
  induction l with
  | nil => simp [insertAsc]
  | cons d ds ih =>
    by_cases h1 : c < d
    · simp [insertAsc, h1]
      try tauto
    · by_cases h2 : c = d
      · subst h2
        simp [insertAsc, h1]
        try tauto
      · simp [insertAsc, h1, h2, ih]
        try tauto

lemma insertAsc_sorted (c : Char) (l : List Char) (h : List.Sorted (·<·) l) :
    List.Sorted (·<·) (insertAsc c l) := by
  induction l with
  | nil => simp [insertAsc]
  | cons d ds ih =>
    by_cases h1 : c < d
    · simp only [insertAsc, if_pos h1]
      refine List.sorted_cons.mpr ⟨?_, h⟩
      intro x hx
      rcases List.mem_cons.mp hx with rfl | hx
      · exact h1
      · exact lt_trans h1 (List.rel_of_sorted_cons h x hx)
    · by_cases h2 : c = d
      · subst h2
        simp [insertAsc, h1, h]
      · have hd : d < c := by
          rcases lt_trichotomy c d with hh | hh | hh
          · exact absurd hh h1
          · exact absurd hh h2
          · exact hh
        simp only [insertAsc, if_neg h1, if_neg h2]
        refine List.sorted_cons.mpr ⟨?_, ih h.of_cons⟩
        intro x hx
        rcases (mem_insertAsc c x ds).mp hx with rfl | hx
        · exact hd
        · exact List.rel_of_sorted_cons h x hx

lemma sortedDedup_sorted (l : List Char) : List.Sorted (·<·) (sortedDedup l) := by
  induction l with
  | nil => simp [sortedDedup]
  | cons c t ih => exact insertAsc_sorted c (sortedDedup t) ih

lemma mem_sortedDedup (x : Char) (l : List Char) : x ∈ sortedDedup l ↔ x ∈ l := by
  induction l with
  | nil => simp [sortedDedup]
  | cons c t ih =>
    show x ∈ insertAsc c (sortedDedup t) ↔ _
    rw [mem_insertAsc, ih]
    simp

lemma insertAsc_mem_id (c : Char) (l : List Char) (hs : List.Sorted (·<·) l)
    (hc : c ∈ l) : insertAsc c l = l := by
  induction l with
  | nil => cases hc
  | cons d ds ih =>
    rcases List.mem_cons.mp hc with rfl | hc
    · simp [insertAsc, lt_irrefl]
    · have hd : d < c := List.rel_of_sorted_cons hs c hc
      have h1 : ¬ c < d := fun hx => absurd (lt_trans hx hd) (lt_irrefl c)
      have h2 : ¬ c = d := fun hx => absurd (hx ▸ hd) (lt_irrefl c)
      simp [insertAsc, h1, h2, ih hs.of_cons hc]

lemma sortedDedup_of_sorted (l : List Char) (h : List.Sorted (·<·) l) :
    sortedDedup l = l := by
  induction l with
  | nil => rfl
  | cons c t ih =>
    show insertAsc c (sortedDedup t) = c :: t
    rw [ih h.of_cons]
    cases t with
    | nil => rfl
    | cons d ds =>
      have : c < d := List.rel_of_sorted_cons h d (by simp)
      simp [insertAsc, this]

lemma sortedDedup_append_self (l : List Char) :
    sortedDedup (l ++ l) = sortedDedup l := by
  have haux : ∀ (w s : List Char), List.Sorted (·<·) s → (∀ x ∈ w, x ∈ s) →
      List.foldr insertAsc s w = s := by
    intro w
    induction w with
    | nil => intro s _ _; rfl
    | cons a t ih =>
      intro s hs hmem
      show insertAsc a (List.foldr insertAsc s t) = s
      rw [ih s hs (fun x hx => hmem x (List.mem_cons_of_mem a hx))]
      exact insertAsc_mem_id a s hs (hmem a (List.mem_cons_self a t))
  show List.foldr insertAsc [] (l ++ l) = sortedDedup l
  rw [List.foldr_append]
  exact haux l (sortedDedup l) (sortedDedup_sorted l)
    (fun x hx => (mem_sortedDedup x l).mpr hx)

lemma lookup_map_self (V : List Char) (g : Char → Option ℚ) (c : Char) (hc : c ∈ V) :
    (V.map (fun t => (t, g t))).lookup c = some (g c) := by
  induction V with
  | nil => cases hc
  | cons d ds ih =>
    rcases List.mem_cons.mp hc with rfl | hc
    · simp [List.lookup]
    · by_cases hcd : c = d
      · subst hcd
        simp [List.lookup]
      · have hb : (c == d) = false := beq_eq_false_iff_ne.mpr hcd
        simp [List.lookup, hb, ih hc]

lemma index_map_self (V : List Char) (g : Char → ℚ) :
    Series.index (V.map (fun c => (c, some (g c)))) = V := by
  induction V with
  | nil => rfl
  | cons c t ih => simpa [Series.index, List.map_map] using ih

lemma scale_map_self (V : List Char) (f : Char → ℚ) (r : ℚ) :
    Series.scale (V.map (fun c => (c, some (f c)))) r
      = V.map (fun c => (c, some (f c * r))) := by
  simp [Series.scale, List.map_map, Function.comp]

lemma divide_map_self (V : List Char) (f : Char → ℚ) (q : ℚ) :
    Series.divide (V.map (fun c => (c, some (f c)))) q
      = V.map (fun c => (c, some (f c / q))) := by
  simp [Series.divide, List.map_map, Function.comp]

lemma seriesAdd_map (V : List Char) (hV : List.Sorted (·<·) V) (g f : Char → ℚ) :
    Series.add (V.map (fun c => (c, some (g c)))) (V.map (fun c => (c, some (f c))))
      = V.map (fun c => (c, some (g c + f c))) := by
  unfold Series.add
  rw [index_map_self, index_map_self, sortedDedup_append_self, sortedDedup_of_sorted V hV]
  apply List.map_congr_left
  intro c hc
  rw [show (V.map (fun c => (c, some (g c)))).lookup c = some (some (g c)) from
        lookup_map_self V _ c hc,
      show (V.map (fun c => (c, some (f c)))).lookup c = some (some (f c)) from
        lookup_map_self V _ c hc]

lemma seriesSum_go (f : Char → ℚ) : ∀ (V : List Char) (a : ℚ),
    List.foldl (fun acc p => acc + p.2.getD 0) a (V.map (fun c => (c, some (f c))))
      = a + (V.map f).sum := by
  intro V
  induction V with
  | nil =>
    intro a
    simp
  | cons c t ih =>
    intro a
    simp [List.foldl, ih, add_assoc]

lemma seriesSum_map (V : List Char) (f : Char → ℚ) :
    Series.sum (V.map (fun c => (c, some (f c)))) = (V.map f).sum := by
  show List.foldl _ 0 _ = _
  rw [seriesSum_go f V 0, zero_add]

lemma sum_map_div (V : List Char) (f : Char → ℚ) (q : ℚ) :
    (V.map (fun c => f c / q)).sum = (V.map f).sum / q := by
  induction V with
  | nil => simp
  | cons c t ih => simp [ih, add_div]

lemma getCountsAux_structure (corpus : List Char) (s r : ℚ) (hs : 0 < s) :
    ∀ (k : Nat), (∀ j, j ≤ k → vocabOf corpus j = vocabOf corpus 0) →
    ∀ (ctx : List Char),
    ∃ f : Char → ℚ,
      getCountsAux corpus s r k ctx = (vocabOf corpus 0).map (fun c => (c, some (f c)))
      ∧ ∀ c, c ∈ vocabOf corpus 0 → 0 < f c := by
  intro k
  induction k with
  | zero =>
    intro _ ctx
    exact ⟨fun c => (ngramCount 0 [] c corpus : ℚ) + s, rfl,
      fun c _ => by positivity⟩
  | succ k ih =>
    intro hvoc ctx
    have hk : ∀ j, j ≤ k → vocabOf corpus j = vocabOf corpus 0 :=
      fun j hj => hvoc j (Nat.le_succ_of_le hj)
    obtain ⟨f, hf, hfpos⟩ := ih hk ctx
    have hsort : List.Sorted (·<·) (vocabOf corpus 0) := sortedDedup_sorted _
    by_cases hrc : 0 < r
    · refine ⟨fun c =>
        ((ngramCount (k+1) (localContext (k+1) ctx) c corpus : ℚ) + s) + f c * r, ?_, ?_⟩
      · show (if 0 < r then _ else _) = _
        rw [if_pos hrc, hvoc (k+1) le_rfl, hf, scale_map_self,
          seriesAdd_map _ hsort]
      · intro c hc
        have h1 : (0:ℚ) < (ngramCount (k+1) (localContext (k+1) ctx) c corpus : ℚ) + s := by
          positivity
        exact add_pos h1 (mul_pos (hfpos c hc) hrc)
    · refine ⟨fun c => (ngramCount (k+1) (localContext (k+1) ctx) c corpus : ℚ) + s, ?_,
        fun c _ => by positivity⟩
      show (if 0 < r then _ else _) = _
      rw [if_neg hrc, hvoc (k+1) le_rfl]

/-- Claim C5 (amended).  `predict_proba` is a strictly-positive probability
distribution (values summing to 1, every entry positive) provided the model is
fitted so that every backoff order sees the same vocabulary, that vocabulary
is non-empty, and the smoothing constant is positive.  (The unamended claim
fails when the corpus is no longer than the order: the vocabulary is empty
and the values sum to 0, see the counterexample.) -/
theorem predict_proba_is_distribution (m : LanguageNgramModel)
    (hvoc : ∀ j, j ≤ m.order → vocabOf m.corpus j = vocabOf m.corpus 0)
    (hne : vocabOf m.corpus 0 ≠ [])
    (hs : 0 < m.smoothing) (context : List Char) :
    (m.predict_proba context).sum = 1 ∧
      ∀ p ∈ m.predict_proba context, ∃ q : ℚ, p.2 = some q ∧ 0 < q := by
  obtain ⟨f, hf, hfpos⟩ :=
    getCountsAux_structure m.corpus m.smoothing m.recursive hs m.order hvoc context
  have hcounts : m.get_counts context
      = (vocabOf m.corpus 0).map (fun c => (c, some (f c))) := hf
  have hSpos : 0 < ((vocabOf m.corpus 0).map f).sum := by
    apply List.sum_pos
    · intro x hx
      obtain ⟨c, hc, rfl⟩ := List.mem_map.mp hx
      exact hfpos c hc
    · simpa using hne
  have hpp : m.predict_proba context
      = (vocabOf m.corpus 0).map
          (fun c => (c, some (f c / ((vocabOf m.corpus 0).map f).sum))) := by
    show ((m.get_counts context).divide (m.get_counts context).sum) = _
    rw [hcounts, seriesSum_map, divide_map_self]
  constructor
  · rw [hpp, seriesSum_map, sum_map_div, div_self (ne_of_gt hSpos)]
  · intro p hp
    rw [hpp] at hp
    obtain ⟨c, hc, rfl⟩ := List.mem_map.mp hp
    exact ⟨f c / ((vocabOf m.corpus 0).map f).sum, rfl, div_pos (hfpos c hc) hSpos⟩

/-- Witness for the amended C5 theorem: the bigram model `lmV` (corpus
`' ab '`, smoothing 1, recursive 1) satisfies all hypotheses, so its
predictions in the empty context form a positive distribution. -/
theorem predict_proba_is_distribution_witness :
    (lmV.predict_proba []).sum = 1 ∧
      ∀ p ∈ lmV.predict_proba [], ∃ q : ℚ, p.2 = some q ∧ 0 < q :=
  predict_proba_is_distribution lmV
    (fun j hj => by rcases Nat.le_one_iff_eq_zero_or_eq_one.mp hj with rfl | rfl <;> decide)
    (by decide) (by decide) []

lemma pairMissedCount_le_pairTotalCount (order : Nat) (orig obs context : List Char)
    (letter : Char) :
    pairMissedCount order orig obs context letter
      ≤ pairTotalCount order orig obs context letter := by
  apply List.countP_mono_left
  intro i _ h
  have h' := of_decide_eq_true h
  exact decide_eq_true_eq.mpr ⟨h'.1, h'.2.1⟩

lemma missedCount_le_totalCount (m : MissingLetterModel) (context : List Char)
    (letter : Char) :
    m.missedCount context letter ≤ m.totalCount context letter := by
  apply List.sum_le_sum
  intro p _
  exact pairMissedCount_le_pairTotalCount m.order p.1 p.2 context letter

/-- Claim C7 (amended).  The deletion model's probability estimate lies
strictly between 0 and 1 — so both the deletion cost `-log p` and the
kept-letter cost `-log (1 - p)` are logarithms of strictly positive numbers,
hence finite — provided the smoothing constants satisfy
`0 < smoothing_missed < smoothing_total`.  (The unamended claim fails when
`smoothing_missed = smoothing_total` on an empty training set: then `p = 1`
and `-log (1 - p)` is infinite, see the counterexample.) -/
theorem deletion_probability_in_unit_interval (m : MissingLetterModel)
    (h0 : 0 < m.smoothing_missed) (h1 : m.smoothing_missed < m.smoothing_total)
    (context : List Char) (letter : Char) :
    0 < m.predict_proba context letter ∧ m.predict_proba context letter < 1 := by
  show 0 < (_ + _) / (_ + _) ∧ (_ + _) / (_ + _) < 1
  have hMT : ((m.missedCount (localContext m.order context) letter : ℚ))
      ≤ (m.totalCount (localContext m.order context) letter : ℚ) :=
    Nat.cast_le.mpr (missedCount_le_totalCount m _ letter)
  have hst : (0:ℚ) < m.smoothing_total := lt_trans h0 h1
  constructor
  · apply div_pos
    · positivity
    · positivity
  · rw [div_lt_one (by positivity)]
    exact add_lt_add_of_le_of_lt hMT h1

/-- Witness for the amended C7 theorem: the model `mmW`
(`smoothing_missed = 1`, `smoothing_total = 2`) satisfies the hypotheses,
so its estimate for `'a'` in the empty context is strictly between 0 and 1. -/
theorem deletion_probability_in_unit_interval_witness :
    0 < mmW.predict_proba [] 'a' ∧ mmW.predict_proba [] 'a' < 1 :=
  deletion_probability_in_unit_interval mmW
    (by decide) (by decide) [] 'a'

/-! ## The structure of `generate_options` (claim C3) -/

lemma single_proba_singleton (m : LanguageNgramModel) (P : List Char) (c : Char) (v : ℚ)
    (h : (m.predict_proba P).get c = .ok (some v)) :
    m.single_proba P [c] = .ok (some (Real.exp (0 + Real.log (v : ℝ)))) := by
  simp [LanguageNgramModel.single_proba, LanguageNgramModel.single_log_proba, langSLPGo,
    h, Except.bind, bind, Except.map, rfAdd, rfLog, rfOfQ, rfExp]

/-- Claim C3.  On a non-empty suffix `s :: rest`, with every vocabulary
symbol and `s` scored by the language model in context `P` (values `q`), and
with the cache holding entries for the relevant suffix lengths,
`generate_options` returns exactly one deletion child per vocabulary symbol
followed by the single consuming child, each with the claimed edge cost,
prefix, suffix and cached-heuristic score composition. -/
theorem generate_options_structure (pp : RF) (P : List Char) (s : Char) (rest : List Char)
    (lang : LanguageNgramModel) (mm : MissingLetterModel) (opt : ℝ)
    (c₀ : RF) (cs : List RF) (q : Char → ℚ) (hS hR : RF)
    (hq : ∀ c, c ∈ lang.vocabulary → (lang.predict_proba P).get c = .ok (some (q c)))
    (hqs : (lang.predict_proba P).get s = .ok (some (q s)))
    (hcS : cacheGet (c₀ :: cs) (s :: rest).length = .ok hS)
    (hcR : cacheGet (c₀ :: cs) rest.length = .ok hR) :
    generate_options pp P (s :: rest) lang mm opt (some (c₀ :: cs))
      = .ok (lang.vocabulary.map
            (claimedDeletionChild pp P (s :: rest) mm q (rfScale opt hS))
          ++ [claimedConsumeChild pp P s rest mm (q s) (rfScale opt hR)]) := by
  unfold generate_options
  revert hq
  generalize lang.vocabulary = W
  intro hq
  induction W with
  | nil =>
    simp only [List.map_nil, List.nil_append, List.mapM_cons, List.mapM_nil,
      Except.bind, bind, pure, Except.pure]
    try dsimp only
    rw [single_proba_singleton lang P s (q s) hqs]
    simp [hcR, Except.bind, bind, pure, Except.pure, rfAdd, rfNeg, rfLog,
      Real.log_exp, claimedConsumeChild]
  | cons c W ih =>
    have hc := hq c (List.mem_cons_self c W)
    have hW : ∀ c', c' ∈ W → (lang.predict_proba P).get c' = .ok (some (q c')) :=
      fun c' h => hq c' (List.mem_cons_of_mem c h)
    simp only [List.map_cons, List.cons_append, List.mapM_cons,
      Except.bind, bind, pure, Except.pure]
    try dsimp only
    rw [single_proba_singleton lang P c (q c) hc]
    simp only [Except.bind, bind, pure, Except.pure] at ih ⊢
    rw [ih hW]
    have hcS' : cacheGet (c₀ :: cs) (rest.length + 1) = .ok hS := by
      simpa using hcS
    simp [hcS', Except.bind, bind, pure, Except.pure, rfAdd, rfNeg, rfLog,
      Real.log_exp, claimedDeletionChild]

/-- Witness for the C3 theorem: expanding the root hypothesis of the `'b'`
query against `lmW`/`mmW` with the precomputed cache produces the three
deletion children and the consuming child in exactly the claimed shape. -/
theorem generate_options_structure_witness :
    generate_options (some 0) [' '] ['b',' '] lmW mmW 1
        (some (some 0 :: [some (Real.log (15/2)), some (Real.log (13635/301))]))
      = .ok (lmW.vocabulary.map
            (claimedDeletionChild (some 0) [' '] ['b',' '] mmW
              (fun c => if c = 'a' then 301/303 else 1/303)
              (rfScale 1 (some (Real.log (13635/301)))))
          ++ [claimedConsumeChild (some 0) [' '] 'b' [' '] mmW
              (if 'b' = 'a' then 301/303 else 1/303)
              (rfScale 1 (some (Real.log (15/2))))]) :=
  generate_options_structure (some 0) [' '] 'b' [' '] lmW mmW 1 (some 0)
    [some (Real.log (15/2)), some (Real.log (13635/301))]
    (fun c => if c = 'a' then 301/303 else 1/303)
    (some (Real.log (13635/301))) (some (Real.log (15/2)))
    (by intro c hc
        rw [vocW] at hc
        simp only [List.mem_cons, List.not_mem_nil, or_false] at hc
        rcases hc with rfl | rfl | rfl <;>
          (rw [ppW_sp]; simp [Series.get, List.lookup]))
    (by rw [ppW_sp]; simp [Series.get, List.lookup])
    (by simp [cacheGet])
    (by simp [cacheGet])

/-! ## Out-of-vocabulary behaviour (claim C9) -/

lemma ppX_sp : lmX.predict_proba [' ']
    = [(' ', some (4/11)), ('a', some (7/11)), ('x', none)] := by
  simp only [LanguageNgramModel.predict_proba, LanguageNgramModel.get_counts, lmX]
  rw [show getCountsAux ['x','a',' ','a'] 1 (1/2) 1 [' ']
      = [(' ', some 2), ('a', some (7/2)), ('x', none)] from by
    simp only [getCountsAux]
    rw [show vocabOf ['x','a',' ','a'] (0+1) = [' ','a'] from by decide]
    rw [show localContext (0+1) [' '] = [' '] from by decide]
    rw [if_pos (show (0:ℚ) < 1/2 from by norm_num)]
    simp only [List.map]
    rw [show ngramCount (0+1) [' '] ' ' ['x','a',' ','a'] = 0 from by decide]
    rw [show ngramCount (0+1) [' '] 'a' ['x','a',' ','a'] = 1 from by decide]
    rw [show ngramCount 0 [] ' ' ['x','a',' ','a'] = 1 from by decide]
    rw [show ngramCount 0 [] 'a' ['x','a',' ','a'] = 2 from by decide]
    rw [show ngramCount 0 [] 'x' ['x','a',' ','a'] = 1 from by decide]
    simp [Series.add, Series.scale, Series.index, sortedDedup, insertAsc, List.lookup]
    norm_num]
  simp only [Series.divide, Series.sum, List.foldl, List.map]
  norm_num

lemma ppX_nil : lmX.predict_proba []
    = [(' ', some (4/9)), ('a', some (5/9)), ('x', none)] := by
  simp only [LanguageNgramModel.predict_proba, LanguageNgramModel.get_counts, lmX]
  rw [show getCountsAux ['x','a',' ','a'] 1 (1/2) 1 []
      = [(' ', some 2), ('a', some (5/2)), ('x', none)] from by
    simp only [getCountsAux]
    rw [show vocabOf ['x','a',' ','a'] (0+1) = [' ','a'] from by decide]
    rw [show localContext (0+1) [] = [] from by decide]
    rw [if_pos (show (0:ℚ) < 1/2 from by norm_num)]
    simp only [List.map]
    rw [show ngramCount (0+1) [] ' ' ['x','a',' ','a'] = 0 from by decide]
    rw [show ngramCount (0+1) [] 'a' ['x','a',' ','a'] = 0 from by decide]
    rw [show ngramCount 0 [] ' ' ['x','a',' ','a'] = 1 from by decide]
    rw [show ngramCount 0 [] 'a' ['x','a',' ','a'] = 2 from by decide]
    rw [show ngramCount 0 [] 'x' ['x','a',' ','a'] = 1 from by decide]
    simp [Series.add, Series.scale, Series.index, sortedDedup, insertAsc, List.lookup]
    norm_num]
  simp only [Series.divide, Series.sum, List.foldl, List.map]
  norm_num

lemma ppX_x : lmX.predict_proba ['x']
    = [(' ', some (4/11)), ('a', some (7/11)), ('x', none)] := by
  simp only [LanguageNgramModel.predict_proba, LanguageNgramModel.get_counts, lmX]
  rw [show getCountsAux ['x','a',' ','a'] 1 (1/2) 1 ['x']
      = [(' ', some 2), ('a', some (7/2)), ('x', none)] from by
    simp only [getCountsAux]
    rw [show vocabOf ['x','a',' ','a'] (0+1) = [' ','a'] from by decide]
    rw [show localContext (0+1) ['x'] = ['x'] from by decide]
    rw [if_pos (show (0:ℚ) < 1/2 from by norm_num)]
    simp only [List.map]
    rw [show ngramCount (0+1) ['x'] ' ' ['x','a',' ','a'] = 0 from by decide]
    rw [show ngramCount (0+1) ['x'] 'a' ['x','a',' ','a'] = 1 from by decide]
    rw [show ngramCount 0 [] ' ' ['x','a',' ','a'] = 1 from by decide]
    rw [show ngramCount 0 [] 'a' ['x','a',' ','a'] = 2 from by decide]
    rw [show ngramCount 0 [] 'x' ['x','a',' ','a'] = 1 from by decide]
    simp [Series.add, Series.scale, Series.index, sortedDedup, insertAsc, List.lookup]
    norm_num]
  simp only [Series.divide, Series.sum, List.foldl, List.map]
  norm_num

lemma ppX_sx : lmX.predict_proba [' ','x']
    = [(' ', some (4/11)), ('a', some (7/11)), ('x', none)] := by
  simp only [LanguageNgramModel.predict_proba, LanguageNgramModel.get_counts, lmX]
  rw [show getCountsAux ['x','a',' ','a'] 1 (1/2) 1 [' ','x']
      = [(' ', some 2), ('a', some (7/2)), ('x', none)] from by
    simp only [getCountsAux]
    rw [show vocabOf ['x','a',' ','a'] (0+1) = [' ','a'] from by decide]
    rw [show localContext (0+1) [' ','x'] = ['x'] from by decide]
    rw [if_pos (show (0:ℚ) < 1/2 from by norm_num)]
    simp only [List.map]
    rw [show ngramCount (0+1) ['x'] ' ' ['x','a',' ','a'] = 0 from by decide]
    rw [show ngramCount (0+1) ['x'] 'a' ['x','a',' ','a'] = 1 from by decide]
    rw [show ngramCount 0 [] ' ' ['x','a',' ','a'] = 1 from by decide]
    rw [show ngramCount 0 [] 'a' ['x','a',' ','a'] = 2 from by decide]
    rw [show ngramCount 0 [] 'x' ['x','a',' ','a'] = 1 from by decide]
    simp [Series.add, Series.scale, Series.index, sortedDedup, insertAsc, List.lookup]
    norm_num]
  simp only [Series.divide, Series.sum, List.foldl, List.map]
  norm_num

lemma vocX : lmX.vocabulary = [' ','a'] := by decide

lemma baseX : baselineScore ['x'] lmX mmX = .ok none := by
  simp only [baselineScore, LanguageNgramModel.single_log_proba, langSLPGo,
    List.cons_append, List.nil_append]
  rw [ppX_sp, ppX_sx]
  simp [Series.get, List.lookup, rfAdd, rfNeg, rfLog, rfOfQ,
    Except.bind, bind, pure, Except.pure]

lemma cacheX0 : noisyCacheEntry lmX mmX ['x',' '] 0 = .ok (some 0) := by
  simp [noisyCacheEntry, LanguageNgramModel.single_log_proba, langSLPGo,
    MissingLetterModel.single_log_proba, missedSLPGo, rfAdd, rfNeg,
    Except.bind, bind, pure, Except.pure]

lemma cacheX1 : noisyCacheEntry lmX mmX ['x',' '] 1 = .ok none := by
  simp only [noisyCacheEntry, LanguageNgramModel.single_log_proba, langSLPGo,
    List.take, List.cons_append, List.nil_append]
  rw [ppX_nil]
  simp [Series.get, List.lookup, rfAdd, rfNeg, rfLog, rfOfQ,
    Except.bind, bind, pure, Except.pure]

lemma cacheX2 : noisyCacheEntry lmX mmX ['x',' '] 2 = .ok none := by
  simp only [noisyCacheEntry, LanguageNgramModel.single_log_proba, langSLPGo,
    List.take, List.cons_append, List.nil_append]
  rw [ppX_nil, ppX_x]
  simp [Series.get, List.lookup, rfAdd, rfNeg, rfLog, rfOfQ,
    Except.bind, bind, pure, Except.pure]

lemma cacheX_list :
    (List.range (([ 'x',' ' ] : List Char).length + 1)).mapM (noisyCacheEntry lmX mmX ['x',' '])
      = .ok [some 0, none, none] := by
  rw [show List.range (([ 'x',' ' ] : List Char).length + 1) = [0, 1, 2] from by decide]
  simp [List.mapM, List.mapM.loop, cacheX0, cacheX1, cacheX2,
    Except.bind, bind, pure, Except.pure]

lemma expandXQ :
    generate_options none [' '] ['x',' '] lmX mmX 1 (some [some 0, none, none])
      = .ok [
      { proba := none, pre := [' ',' '], suffix := ['x',' '], letter := [' '], probaSuffix := none },
      { proba := none, pre := [' ','a'], suffix := ['x',' '], letter := ['a'], probaSuffix := none },
      { proba := none, pre := [' ','x'], suffix := [' '], letter := [], probaSuffix := none } ] := by
  simp only [generate_options, vocX, List.map, List.cons_append, List.nil_append]
  simp only [LanguageNgramModel.single_proba, LanguageNgramModel.single_log_proba, langSLPGo]
  rw [ppX_sp]
  simp [Series.get, List.lookup, cacheGet, rfAdd, rfNeg, rfLog, rfExp, rfOfQ, rfScale,
    Except.bind, bind, pure, Except.pure, Except.map, Function.comp,
    List.mapM, List.mapM.loop, SNode.mk.injEq]

theorem runX : noisy_channel ['x'] lmX mmX 0 2 1 = .ok [] := by
  simp only [noisy_channel, List.cons_append, List.nil_append]
  rw [baseX]
  simp only [Except.bind, bind, rfScale, Option.map_none']
  rw [cacheX_list]
  simp only [Except.bind, bind]
  have step1 : searchLoop lmX mmX 0 1 [some 0, none, none] 2
      [{ proba := none, pre := [' '], suffix := ['x',' '], letter := [], probaSuffix := none }]
      [{ proba := none, pre := [' ','x',' '], suffix := ([] : List Char), letter := [], probaSuffix := some 0 }]
      none
      = searchLoop lmX mmX 0 1 [some 0, none, none] 1
      []
      [{ proba := none, pre := [' ','x',' '], suffix := ([] : List Char), letter := [], probaSuffix := some 0 }]
      none := by
    rw [show (2:ℕ) = 1+1 from rfl, searchLoop, popMin_single]
    try dsimp only
    rw [if_neg (show ¬ (['x',' '] : List Char) = [] from by decide)]
    simp only [rfSub, Except.bind, bind]
    rw [expandXQ]
    simp [rfLt, rfAdd, List.foldl, Except.bind, bind]
  rw [step1]
  have step2 : searchLoop lmX mmX 0 1 [some 0, none, none] 1
      []
      [{ proba := none, pre := [' ','x',' '], suffix := ([] : List Char), letter := [], probaSuffix := some 0 }]
      none
      = Except.ok ([{ proba := none, pre := [' ','x',' '], suffix := ([] : List Char), letter := [], probaSuffix := some 0 }], none) := by
    rw [show (1:ℕ) = 0+1 from rfl, searchLoop]
    rfl
  rw [step2]
  simp [Except.map, resultMap, List.foldl, rfLe, rfAdd]

lemma index_map_pair (V : List Char) (g : Char → Option ℚ) :
    Series.index (V.map (fun c => (c, g c))) = V := by
  induction V with
  | nil => rfl
  | cons c t ih => simpa [Series.index, List.map_map] using ih

lemma scale_index (s : Series) (q : ℚ) : Series.index (s.scale q) = Series.index s := by
  induction s with
  | nil => rfl
  | cons p t ih => simpa [Series.index, Series.scale, List.map_map] using ih

lemma divide_index (s : Series) (q : ℚ) : Series.index (s.divide q) = Series.index s := by
  induction s with
  | nil => rfl
  | cons p t ih => simpa [Series.index, Series.divide, List.map_map] using ih

lemma foldr_insertAsc_subset (w s : List Char) (hs : List.Sorted (·<·) s)
    (hmem : ∀ x ∈ w, x ∈ s) : List.foldr insertAsc s w = s := by
  induction w with
  | nil => rfl
  | cons a t ih =>
    show insertAsc a (List.foldr insertAsc s t) = s
    rw [ih (fun x hx => hmem x (List.mem_cons_of_mem a hx))]
    exact insertAsc_mem_id a s hs (hmem a (List.mem_cons_self a t))

lemma sortedDedup_append_sortedDedup (A B : List Char)
    (h : ∀ x ∈ A, x ∈ sortedDedup B) :
    sortedDedup (A ++ sortedDedup B) = sortedDedup B := by
  show List.foldr insertAsc [] (A ++ sortedDedup B) = sortedDedup B
  rw [List.foldr_append]
  rw [show List.foldr insertAsc [] (sortedDedup B) = sortedDedup B from
    sortedDedup_of_sorted _ (sortedDedup_sorted B)]
  exact foldr_insertAsc_subset A _ (sortedDedup_sorted B) h

lemma vocabOf_subset (corpus : List Char) (k : Nat) :
    ∀ x ∈ vocabOf corpus k, x ∈ vocabOf corpus 0 := by
  intro x hx
  have h1 : x ∈ corpus.drop k := (mem_sortedDedup x _).mp hx
  have h2 : x ∈ corpus := List.mem_of_mem_drop h1
  exact (mem_sortedDedup x _).mpr (by simpa using h2)

lemma getCountsAux_index (corpus : List Char) (s r : ℚ) (hr : 0 < r) :
    ∀ (k : Nat) (ctx : List Char),
    Series.index (getCountsAux corpus s r k ctx) = vocabOf corpus 0 := by
  intro k
  induction k with
  | zero =>
    intro ctx
    exact index_map_pair _ _
  | succ k ih =>
    intro ctx
    show Series.index (if 0 < r then _ else _) = _
    rw [if_pos hr]
    show Series.index (Series.add _ _) = _
    unfold Series.add
    rw [index_map_pair, index_map_pair, scale_index, ih ctx]
    exact sortedDedup_append_sortedDedup _ _ (vocabOf_subset corpus (k+1))

lemma series_lookup_eq_none (s : Series) (c : Char) (h : c ∉ Series.index s) :
    s.lookup c = none := by
  induction s with
  | nil => rfl
  | cons p t ih =>
    have hne : c ≠ p.1 := fun he => h (by simp [Series.index, he])
    have hb : (c == p.1) = false := beq_eq_false_iff_ne.mpr hne
    have ht : c ∉ Series.index t := fun he => h (by simp [Series.index] at he ⊢; exact Or.inr he)
    simp [List.lookup, hb, ih ht]

lemma predict_proba_get_keyError (m : LanguageNgramModel) (hr : 0 < m.recursive)
    (ctx : List Char) (c : Char) (hc : c ∉ vocabOf m.corpus 0) :
    (m.predict_proba ctx).get c = .error .keyError := by
  have hidx : Series.index (m.predict_proba ctx) = vocabOf m.corpus 0 := by
    show Series.index ((m.get_counts ctx).divide _) = _
    rw [divide_index]
    exact getCountsAux_index m.corpus m.smoothing m.recursive hr m.order ctx
  have : (m.predict_proba ctx).lookup c = none :=
    series_lookup_eq_none _ c (hidx ▸ hc)
  simp [Series.get, this]

lemma series_get_error_keyError (s : Series) (c : Char) (e : Err)
    (h : s.get c = .error e) : e = .keyError := by
  unfold Series.get at h
  cases hl : s.lookup c with
  | none => rw [hl] at h; cases h; rfl
  | some v => rw [hl] at h; cases h

lemma langSLPGo_keyError (m : LanguageNgramModel) (hr : 0 < m.recursive) :
    ∀ (cont : List Char) (c : Char), c ∈ cont → c ∉ vocabOf m.corpus 0 →
    ∀ (ctx : List Char) (acc : RF), langSLPGo m ctx cont acc = .error .keyError := by
  intro cont
  induction cont with
  | nil =>
    intro c hc
    cases hc
  | cons t ts ih =>
    intro c hc hcv ctx acc
    rcases List.mem_cons.mp hc with rfl | hc
    · simp only [langSLPGo]
      rw [predict_proba_get_keyError m hr ctx c hcv]
      rfl
    · simp only [langSLPGo]
      cases hget : (m.predict_proba ctx).get t with
      | error e =>
        have he : e = .keyError := series_get_error_keyError _ t e hget
        subst he
        simp [hget, Except.bind, bind]
      | ok v =>
        simp [hget, Except.bind, bind, ih c hc hcv]

lemma baselineScore_keyError (word : List Char) (m : LanguageNgramModel)
    (mm : MissingLetterModel) (c : Char) (hr : 0 < m.recursive)
    (hc : c ∈ word ++ [' ']) (hcv : c ∉ vocabOf m.corpus 0) :
    baselineScore word m mm = .error .keyError := by
  simp only [baselineScore, LanguageNgramModel.single_log_proba]
  rw [langSLPGo_keyError m hr (word ++ [' ']) c hc hcv [' '] (some 0)]
  rfl

/-- Claim C9 (amended).  For a model fitted with a positive backoff
coefficient, the index of every prediction series is the corpus's full symbol
set, so a query containing a symbol that never occurs in the corpus makes
`noisy_channel` fail with an explicit `KeyError` (raised while scoring the
baseline hypothesis), for every freedom, attempt budget and optimism.  (The
unamended claim — an error for every symbol outside `vocabulary_` — fails:
a symbol that occurs in the corpus but never as a prediction target of the
top order gets a silent NaN score instead, see the counterexample.) -/
theorem noisy_channel_out_of_corpus_keyError (word : List Char)
    (m : LanguageNgramModel) (mm : MissingLetterModel) (c : Char)
    (hr : 0 < m.recursive) (hc : c ∈ word ++ [' '])
    (hcv : c ∉ vocabOf m.corpus 0) (freedom : ℝ) (N : Nat) (opt : ℝ) :
    noisy_channel word m mm freedom N opt = .error .keyError := by
  simp only [noisy_channel]
  rw [baselineScore_keyError word m mm c hr hc hcv]
  rfl

/-- Witness for the amended C9 theorem: `'q'` does not occur in `lmV`'s
corpus `' ab '`, and searching for the word `'q'` indeed raises `KeyError`. -/
theorem noisy_channel_out_of_corpus_keyError_witness :
    noisy_channel ['q'] lmV mmW 0 5 1 = .error .keyError :=
  noisy_channel_out_of_corpus_keyError ['q'] lmV mmW 'q'
    (by decide) (by decide) (by decide) 0 5 1

/-- Claim C9 counterexample.  `'x'` is outside `lmX`'s trained vocabulary
(`vocabulary_ = [' ', 'a']`), yet `noisy_channel` does not fail with an
explicit error on the query `'x'`: the backoff alignment gives `'x'` a silent
NaN score, every comparison against NaN is false, and the call returns an
ordinary (empty) result mapping. -/
theorem out_of_vocabulary_query_silently_ok :
    ('x' ∉ lmX.vocabulary) ∧ noisy_channel ['x'] lmX mmX 0 2 1 = .ok [] :=
  ⟨by decide, runX⟩

/-! ## No `IndexError` is ever raised (claim C10) -/

lemma langSLPGo_error_keyError (m : LanguageNgramModel) :
    ∀ (cont ctx : List Char) (acc : RF) (e : Err),
    langSLPGo m ctx cont acc = .error e → e = .keyError := by
  intro cont
  induction cont with
  | nil =>
    intro ctx acc e h
    cases h
  | cons t ts ih =>
    intro ctx acc e h
    simp only [langSLPGo] at h
    cases hg : (m.predict_proba ctx).get t with
    | error e' =>
      rw [hg] at h
      have he : e' = e := by
        cases h
        rfl
      exact he ▸ series_get_error_keyError _ t e' hg
    | ok v =>
      rw [hg] at h
      exact ih _ _ _ h

lemma single_proba_error_keyError (m : LanguageNgramModel) (ctx cont : List Char)
    (e : Err) (h : m.single_proba ctx cont = .error e) : e = .keyError := by
  unfold LanguageNgramModel.single_proba at h
  cases hs : m.single_log_proba ctx cont with
  | error e' =>
    rw [hs] at h
    have he : e' = e := by
      cases h
      rfl
    exact he ▸ langSLPGo_error_keyError m cont ctx (some 0) e' hs
  | ok v =>
    rw [hs] at h
    cases h

lemma cacheGet_error_keyError (cache : List RF) (i : Nat) (e : Err)
    (h : cacheGet cache i = .error e) : e = .keyError := by
  unfold cacheGet at h
  cases hg : cache.get? i with
  | none =>
    rw [hg] at h
    cases h
    rfl
  | some v =>
    rw [hg] at h
    cases h

lemma mapM_error_of_elems {α β : Type} (f : α → Except Err β) (L : List α)
    (hf : ∀ x ∈ L, ∀ e, f x = .error e → e = .keyError) :
    ∀ e, L.mapM f = .error e → e = .keyError := by
  induction L with
  | nil =>
    intro e he
    rw [List.mapM_nil] at he
    cases he
  | cons a t ih =>
    intro e he
    rw [List.mapM_cons] at he
    cases hfa : f a with
    | error e' =>
      rw [hfa] at he
      have h1 : e' = e := by
        cases he
        rfl
      exact h1 ▸ hf a (List.mem_cons_self a t) e' hfa
    | ok b =>
      rw [hfa] at he
      cases hmt : t.mapM f with
      | error e' =>
        rw [hmt] at he
        have h1 : e' = e := by
          cases he
          rfl
        exact h1 ▸ ih (fun x hx => hf x (List.mem_cons_of_mem a hx)) e' hmt
      | ok bs =>
        rw [hmt] at he
        cases he

lemma generate_options_error_keyError (pp : RF) (P suffix : List Char)
    (lang : LanguageNgramModel) (mm : MissingLetterModel) (opt : ℝ)
    (cache : Option (List RF)) (hsuf : suffix ≠ []) :
    ∀ e, generate_options pp P suffix lang mm opt cache = .error e → e = .keyError := by
  unfold generate_options
  apply mapM_error_of_elems
  intro letter hlet e hF
  obtain ⟨s, rest, rfl⟩ : ∃ s rest, suffix = s :: rest := by
    cases suffix with
    | nil => exact absurd rfl hsuf
    | cons s rest => exact ⟨s, rest, rfl⟩
  have hstep : ∃ nl ns np pms, (match letter with
      | c :: _ =>
          Except.ok (c, s :: rest, P ++ [c], -Real.log (mm.predict_proba P c))
      | [] =>
          match s :: rest with
          | [] => Except.error Err.indexError
          | s' :: rest' =>
              Except.ok (s', rest', P ++ [s'],
                -Real.log (1 - mm.predict_proba P s'))) =
      Except.ok (nl, ns, np, pms) := by
    cases letter with
    | nil => exact ⟨s, rest, P ++ [s], -Real.log (1 - mm.predict_proba P s), rfl⟩
    | cons c cs => exact ⟨c, s :: rest, P ++ [c], -Real.log (mm.predict_proba P c), rfl⟩
  obtain ⟨nl, ns, np, pms, hstep⟩ := hstep
  rw [hstep] at hF
  simp only [Except.bind, bind] at hF
  cases hsp : lang.single_proba P [nl] with
  | error e' =>
    rw [hsp] at hF
    have h1 : e' = e := by
      cases hF
      rfl
    exact h1 ▸ single_proba_error_keyError lang P [nl] e' hsp
  | ok sp =>
    rw [hsp] at hF
    try dsimp only at hF
    cases cache with
    | none =>
      try dsimp only at hF
      cases hsp2 : lang.single_proba np ns with
      | error e' =>
        rw [hsp2] at hF
        have h1 : e' = e := by
          cases hF
          rfl
        exact h1 ▸ single_proba_error_keyError lang np ns e' hsp2
      | ok v =>
        rw [hsp2] at hF
        cases hF
    | some cl =>
      cases cl with
      | nil =>
        try dsimp only at hF
        cases hsp2 : lang.single_proba np ns with
        | error e' =>
          rw [hsp2] at hF
          have h1 : e' = e := by
            cases hF
            rfl
          exact h1 ▸ single_proba_error_keyError lang np ns e' hsp2
        | ok v =>
          rw [hsp2] at hF
          cases hF
      | cons c₀ cs =>
        try dsimp only at hF
        cases hcg : cacheGet (c₀ :: cs) ns.length with
        | error e' =>
          rw [hcg] at hF
          have h1 : e' = e := by
            cases hF
            rfl
          exact h1 ▸ cacheGet_error_keyError _ _ e' hcg
        | ok v =>
          rw [hcg] at hF
          cases hF

lemma baselineScore_error_keyError (word : List Char) (lang : LanguageNgramModel)
    (mm : MissingLetterModel) (e : Err)
    (h : baselineScore word lang mm = .error e) : e = .keyError := by
  simp only [baselineScore, LanguageNgramModel.single_log_proba] at h
  cases hs : langSLPGo lang [' '] (word ++ [' ']) (some 0) with
  | error e' =>
    rw [hs] at h
    have h1 : e' = e := by
      cases h
      rfl
    exact h1 ▸ langSLPGo_error_keyError lang _ _ _ e' hs
  | ok v =>
    rw [hs] at h
    cases h

lemma noisyCacheEntry_error_keyError (lang : LanguageNgramModel)
    (mm : MissingLetterModel) (query : List Char) (i : Nat) (e : Err)
    (h : noisyCacheEntry lang mm query i = .error e) : e = .keyError := by
  simp only [noisyCacheEntry, LanguageNgramModel.single_log_proba] at h
  cases hs : langSLPGo lang [] (query.take i) (some 0) with
  | error e' =>
    rw [hs] at h
    have h1 : e' = e := by
      cases h
      rfl
    exact h1 ▸ langSLPGo_error_keyError lang _ _ _ e' hs
  | ok v =>
    rw [hs] at h
    cases h

lemma searchLoop_error_keyError (lang : LanguageNgramModel)
    (mm : MissingLetterModel) (freedom optimism : ℝ) (cache : List RF) :
    ∀ (n : Nat) (heap candidates : List SNode) (best : RF) (e : Err),
    searchLoop lang mm freedom optimism cache n heap candidates best = .error e →
    e = .keyError := by
  intro n
  induction n with
  | zero =>
    intro heap candidates best e h
    cases h
  | succ n ih =>
    intro heap candidates best e h
    rw [searchLoop] at h
    cases hp : popMin heap with
    | none =>
      rw [hp] at h
      cases h
    | some pr =>
      rw [hp] at h
      obtain ⟨nb, rest⟩ := pr
      try dsimp only at h
      by_cases hsuf : nb.suffix = []
      · rw [if_pos hsuf] at h
        split_ifs at h with h1
        all_goals exact ih _ _ _ _ h
      · rw [if_neg hsuf] at h
        simp only [Except.bind, bind] at h
        cases hgo : generate_options (rfSub nb.proba nb.probaSuffix) nb.pre nb.suffix
            lang mm optimism (some cache) with
        | error e' =>
          rw [hgo] at h
          have h1 : e' = e := by
            cases h
            rfl
          exact h1 ▸ generate_options_error_keyError _ _ _ lang mm _ _ hsuf e' hgo
        | ok opts =>
          rw [hgo] at h
          try dsimp only at h
          exact ih _ _ _ _ h

/-- No run of `noisy_channel` can return `Err.indexError`. -/
lemma noisy_channel_result_no_idx_fault (word : List Char) (lang : LanguageNgramModel)
    (mm : MissingLetterModel) (freedom : ℝ) (N : Nat) (opt : ℝ) :
    noisy_channel word lang mm freedom N opt ≠ .error .indexError := by
  intro h
  simp only [noisy_channel] at h
  cases hb : baselineScore word lang mm with
  | error e =>
    rw [hb] at h
    have h1 : e = Err.indexError := by
      cases h
      rfl
    rw [baselineScore_error_keyError word lang mm e hb] at h1
    cases h1
  | ok best =>
    rw [hb] at h
    simp only [Except.bind, bind] at h
    cases hcache : (List.range ((word ++ [' ']).length + 1)).mapM
        (noisyCacheEntry lang mm (word ++ [' '])) with
    | error e =>
      rw [hcache] at h
      have h1 : e = Err.indexError := by
        cases h
        rfl
      rw [mapM_error_of_elems _ _
        (fun i _ e' he' => noisyCacheEntry_error_keyError lang mm _ i e' he') e hcache] at h1
      cases h1
    | ok cache =>
      rw [hcache] at h
      simp only [Except.bind, bind] at h
      cases hsl : searchLoop lang mm freedom opt cache N
          [{ proba := rfScale opt best, pre := [' '], suffix := word ++ [' '],
             letter := [], probaSuffix := rfScale opt best }]
          [{ proba := best, pre := [' '] ++ (word ++ [' ']), suffix := [],
             letter := [], probaSuffix := some 0 }] best with
      | error e =>
        rw [hsl] at h
        have h1 : e = Err.indexError := by
          cases h
          rfl
        rw [searchLoop_error_keyError lang mm freedom opt cache N _ _ _ e hsl] at h1
        cases h1
      | ok out =>
        rw [hsl] at h
        cases h

/-- Claim C10.  `noisy_channel` never fails with an `IndexError`: every
hypothesis the search expands has a non-empty remaining suffix (leaves are
accepted, never expanded), so the `suffix[0]` access inside
`generate_options` never faults.  Every run either succeeds or fails with a
`KeyError` — the only error any component can produce. -/
theorem noisy_channel_no_indexError (word : List Char) (lang : LanguageNgramModel)
    (mm : MissingLetterModel) (freedom : ℝ) (N : Nat) (opt : ℝ) :
    noisy_channel word lang mm freedom N opt = .error Err.keyError ∨
    ∃ out, noisy_channel word lang mm freedom N opt = .ok out := by
  cases hr : noisy_channel word lang mm freedom N opt with
  | error e =>
    cases e with
    | keyError => exact Or.inl rfl
    | indexError =>
      exact absurd hr (noisy_channel_result_no_idx_fault word lang mm freedom N opt)
  | ok out => exact Or.inr ⟨out, rfl⟩
